import Mathlib

/-!
Verification development for `linux_driver_examples`.

Shallow embedding of

* `acpi_gpio/driver/acpi-gpio-pps-client.c` (namespace `AcpiGpioPpsClient`): the
  multi-line PPS registration (`acpi_gpio_pps_client_probe`) and its teardown
  (`acpi_gpio_pps_client_disable`);
* `acpi_gpio/tools/ppstool/sources/{PPS.cxx,Main.cxx}` (namespace `PpsTool`): the
  `PPS::Device` wrapper and the client functions `prepare`, `print`, `main`;
* `pci_watchdog/pwdog.c` (namespace `Pwdog`): `pwdog_probe` and `pwdog_disable`;
* `acpi_gpio/driver/sc4-list-gpios.c` (namespace `Sc4ListGpios`): the ACPI
  enumeration, the direction lookup and `sc4_list_gpios_probe`.

C `int` values are mathematical integers (`Int`); the only arithmetic performed on
them is bitwise and/or on values that stay in range, so no wrap-around occurs.
Calls into the kernel (driver side) or into the operating system (client side) are
answered by an explicit environment record, and every such call is appended to a
trace so that "which calls were made" is a statement about a list.
-/

namespace LinuxPps

/-! ## Constants and records of `linux/pps.h` -/

/-- Mode bit `PPS_CAPTUREASSERT` of `linux/pps.h`. -/
def PPS_CAPTUREASSERT : Int := 0x01
/-- Mode bit `PPS_CAPTURECLEAR` of `linux/pps.h`. -/
def PPS_CAPTURECLEAR : Int := 0x02
/-- Mode bit `PPS_OFFSETASSERT` of `linux/pps.h`. -/
def PPS_OFFSETASSERT : Int := 0x10
/-- Mode bit `PPS_OFFSETCLEAR` of `linux/pps.h`. -/
def PPS_OFFSETCLEAR : Int := 0x20
/-- Mode bit `PPS_ECHOASSERT` of `linux/pps.h`. -/
def PPS_ECHOASSERT : Int := 0x40
/-- Mode bit `PPS_ECHOCLEAR` of `linux/pps.h`. -/
def PPS_ECHOCLEAR : Int := 0x80
/-- Mode bit `PPS_CANWAIT` of `linux/pps.h`. -/
def PPS_CANWAIT : Int := 0x100
/-- Mode bit `PPS_CANPOLL` of `linux/pps.h`. -/
def PPS_CANPOLL : Int := 0x200
/-- Mode bit `PPS_TSFMT_TSPEC` of `linux/pps.h`. -/
def PPS_TSFMT_TSPEC : Int := 0x1000
/-- Mode bit `PPS_TSFMT_NTPFP` of `linux/pps.h`. -/
def PPS_TSFMT_NTPFP : Int := 0x2000

/-- Record `struct pps_ktime`. -/
structure pps_ktime where
  sec : Int
  nsec : Int
  flags : Nat
deriving DecidableEq

/-- Record `struct pps_kinfo`. -/
structure pps_kinfo where
  assert_sequence : Nat
  clear_sequence : Nat
  assert_tu : pps_ktime
  clear_tu : pps_ktime
  current_mode : Int
deriving DecidableEq

/-- Record `struct pps_kparams`. -/
structure pps_kparams where
  api_version : Int
  mode : Int
  assert_off_tu : pps_ktime
  clear_off_tu : pps_ktime
deriving DecidableEq

/-- Record `struct pps_fdata`. -/
structure pps_fdata where
  info : pps_kinfo
  timeout : pps_ktime
deriving DecidableEq

end LinuxPps

namespace AcpiGpioPpsClient

open LinuxPps

/-! ## Constants -/

/-- Value of `DRIVER_NAME`. -/
def DRIVER_NAME : String := "acpi_gpio_pps_client"

/-- Value of `MAX_GPIOS`. -/
def MAX_GPIOS : Nat := 8

/-- Value of `GPIO_MASK`, the default of the module parameter `gpios_mask`. -/
def GPIO_MASK : Int := 1

/-- Table `gpio_names` of the source (entries 4 and 5 really lack the second zero). -/
def gpio_names : List String :=
  ["GPIO00", "GPIO01", "GPIO02", "GPIO03", "GPIO4", "GPIO5", "GPIO06", "GPIO07"]

/-- Size `PPS_MAX_NAME_LEN` of the name buffer in `struct pps_source_info`. -/
def PPS_MAX_NAME_LEN : Nat := 32

/-- Trigger flag `IRQF_TRIGGER_RISING` of `linux/interrupt.h`. -/
def IRQF_TRIGGER_RISING : Int := 0x1

/-- Kernel error number `ENOENT`. -/
def ENOENT : Int := 2
/-- Kernel error number `ENOMEM`. -/
def ENOMEM : Int := 12
/-- Kernel error number `EBUSY`. -/
def EBUSY : Int := 16
/-- Kernel error number `EPROBE_DEFER`. -/
def EPROBE_DEFER : Int := 517

/-! ## Pointers -/

/-- An error code that `ERR_PTR` can carry: `-MAX_ERRNO ≤ e < 0`. -/
abbrev Errno : Type := { e : Int // -4095 ≤ e ∧ e < 0 }

/-- A kernel pointer as the driver tests it: `NULL`, a valid object (identified by a
number), or an `ERR_PTR` value. -/
inductive Ptr where
  | null : Ptr
  | obj (id : Nat) : Ptr
  | err (e : Errno) : Ptr
deriving DecidableEq

/-- Macro `IS_ERR`. -/
def IS_ERR : Ptr → Bool
  | .err _ => true
  | _ => false

/-- Macro `PTR_ERR`; the driver applies it to error pointers only (for the other
pointers the model returns 0, a value the driver never reads). -/
def PTR_ERR : Ptr → Int
  | .err e => e.val
  | _ => 0

/-- C truth value of a pointer, as in `if (client->pps)`. -/
def Ptr.nonNull : Ptr → Bool
  | .null => false
  | _ => true

/-! ## Data model -/

/-- Fields of `struct pps_source_info` written by the driver (`owner` is the constant
`THIS_MODULE`). -/
structure pps_source_info where
  name : String
  mode : Int
deriving DecidableEq

/-- Record `struct acpi_gpio_pps_client_device_data`: one Line Slot. -/
structure acpi_gpio_pps_client_device_data where
  gpio : Ptr
  pps : Ptr
  pps_info : pps_source_info
  irq : Int
deriving DecidableEq

/-- Record `struct acpi_gpio_pps_client_data`: the array `pps_client[MAX_GPIOS]`,
indexed by `0 ≤ i < MAX_GPIOS` (the code never uses another index). The fields `dev`
(constant) and `clients` (never written) are left out. -/
structure acpi_gpio_pps_client_data where
  pps_client : Nat → acpi_gpio_pps_client_device_data

/-- A slot as `devm_kzalloc` leaves it. -/
def zero_device_data : acpi_gpio_pps_client_device_data :=
  { gpio := .null, pps := .null, pps_info := { name := "", mode := 0 }, irq := 0 }

/-- The table as `devm_kzalloc` leaves it. -/
def zero_data : acpi_gpio_pps_client_data :=
  { pps_client := fun _ => zero_device_data }

/-- A call of the driver into the kernel, with its arguments. -/
inductive Call where
  | devm_gpiod_get (con_id : String)
  | gpiod_to_irq (gpio : Ptr)
  | pps_register_source (info : pps_source_info) (default_params : Int)
  | pps_unregister_source (pps : Ptr)
  | devm_request_irq (irq : Int) (irqflags : Int) (devname : String)
  | devm_add_action_or_reset
deriving DecidableEq

/-- The PPS core's registry: the identifiers of the registered sources and the
identifier that the next allocated `struct pps_device` receives. -/
structure Kernel where
  sources : List Nat
  next_id : Nat
deriving DecidableEq

/-- Outcomes of the external steps of one `probe` call. The functions are indexed
by the line index `i` for which the call is made. -/
structure Env where
  /-- does `devm_kzalloc` return memory -/
  devm_kzalloc : Bool
  /-- result of `devm_gpiod_get` for `gpio_names[i]`: a descriptor or an error pointer -/
  devm_gpiod_get : Nat → Except Errno Nat
  /-- result of `gpiod_to_irq` for the descriptor of line `i` (negative: error) -/
  gpiod_to_irq : Nat → Int
  /-- error with which `pps_register_source` fails for line `i`, if it fails -/
  pps_register_source : Nat → Option Errno
  /-- result of `devm_request_irq` for line `i` (0: success) -/
  devm_request_irq : Nat → Int
  /-- result of the `devm_add_action` inside `devm_add_action_or_reset` (0: success) -/
  devm_add_action : Int

/-- State threaded through `probe`: the private table, the registry, the calls made
so far, whether the teardown hook is installed, and whether a call with undefined
behaviour has been made (see `pps_unregister_source`). -/
structure ProbeState where
  priv : acpi_gpio_pps_client_data
  kernel : Kernel
  calls : List Call
  action_added : Bool
  fault : Bool := false

/-- What `probe` leaves behind: its return value, the table (absent when the
allocation failed), the registry and the calls made. When `fault` is set, the probe
has passed to `pps_unregister_source` a pointer that is not a registered source:
the kernel dereferences that pointer, its behaviour from that call on is undefined,
and the probe cannot be taken to return; `ret`, `kernel` and the calls after that
one are then only what the code would go on to do. -/
structure ProbeResult where
  ret : Int
  priv : Option acpi_gpio_pps_client_data
  kernel : Kernel
  calls : List Call
  action_added : Bool
  fault : Bool := false

/-! ## Kernel services -/

/-- Assignment through `client = &priv->pps_client[i]`. -/
def ProbeState.setClient (st : ProbeState) (i : Nat)
    (f : acpi_gpio_pps_client_device_data → acpi_gpio_pps_client_device_data) : ProbeState :=
  { st with priv := { pps_client := Function.update st.priv.pps_client i (f (st.priv.pps_client i)) } }

/-- Append a call to the trace. -/
def ProbeState.call (st : ProbeState) (c : Call) : ProbeState :=
  { st with calls := st.calls ++ [c] }

/-- Kernel function `pps_register_source` for line `i`: on success a fresh
`struct pps_device` is allocated and entered in the registry, on failure an error
pointer is returned and the registry is unchanged. -/
def pps_register_source (env : Env) (i : Nat) (info : pps_source_info) (default_params : Int)
    (st : ProbeState) : Ptr × ProbeState :=
  let st := st.call (.pps_register_source info default_params)
  match env.pps_register_source i with
  | some e => (.err e, st)
  | none =>
    (.obj st.kernel.next_id,
      { st with kernel := { sources := st.kernel.sources ++ [st.kernel.next_id],
                            next_id := st.kernel.next_id + 1 } })

/-- Kernel function `pps_unregister_source`: the call is recorded with its argument;
a registered source leaves the registry. The kernel dereferences its argument, so
on a pointer that is not a registered source (an `ERR_PTR` value, or a source that
has been unregistered and freed already) its behaviour is undefined: the model
sets `fault` and leaves the registry as it is. -/
def pps_unregister_source (pps : Ptr) (st : ProbeState) : ProbeState :=
  let st := st.call (.pps_unregister_source pps)
  match pps with
  | .obj id =>
    if id ∈ st.kernel.sources then
      { st with kernel := { st.kernel with sources := st.kernel.sources.erase id } }
    else { st with fault := true }
  | _ => { st with fault := true }

/-- Kernel function `devm_add_action_or_reset`: `devm_add_action`, and when that
fails the action is run at once. -/
def devm_add_action_or_reset (env : Env) (action : ProbeState → ProbeState)
    (st : ProbeState) : Int × ProbeState :=
  let st := st.call .devm_add_action_or_reset
  let ret := env.devm_add_action
  if ret ≠ 0 then (ret, action st) else (ret, { st with action_added := true })

/-! ## The driver -/

/-- Function `acpi_gpio_pps_client_disable` (source lines 58-71); `data` is `st.priv`. -/
def acpi_gpio_pps_client_disable (st : ProbeState) : ProbeState :=
  (List.range MAX_GPIOS).foldl
    (fun st i =>
      let client := st.priv.pps_client i
      if client.pps.nonNull then pps_unregister_source client.pps st else st)
    st

/-- The value that `snprintf` writes to `pps_info.name` for line `i`. -/
def pps_info_name (i : Nat) : String :=
  (DRIVER_NAME ++ ".GPIO0" ++ toString i).take (PPS_MAX_NAME_LEN - 2)

/-- Body of the acquisition loop for index `i` (source lines 87-126). The first
component is `some err` when the body leaves through `goto fail`. -/
def probe_line (env : Env) (gpios_mask : Int) (i : Nat) (st : ProbeState) :
    Option Int × ProbeState :=
  let pps_default_params : Int := Int.lor PPS_CAPTUREASSERT PPS_OFFSETASSERT
  if Int.land gpios_mask ((1 : Int) <<< (i : Int)) ≠ 0 then
    let gpio : Ptr :=
      match env.devm_gpiod_get i with
      | .ok d => .obj d
      | .error e => .err e
    let st := (st.call (.devm_gpiod_get (gpio_names.getD i ""))).setClient i
      (fun c => { c with gpio := gpio })
    if IS_ERR gpio then
      -- err = IS_ERR(client->gpio);
      (some (if IS_ERR gpio then 1 else 0), st)
    else
      let err := env.gpiod_to_irq i
      let st := st.call (.gpiod_to_irq gpio)
      if err < 0 then (some err, st)
      else
        let st := st.setClient i (fun c => { c with irq := err })
        let st := st.setClient i (fun c => { c with pps_info :=
          { name := pps_info_name i,
            mode := Int.lor (Int.lor (Int.lor (Int.lor PPS_CAPTUREASSERT PPS_OFFSETASSERT)
                      PPS_ECHOASSERT) PPS_CANWAIT) PPS_TSFMT_TSPEC } })
        let (pps, st) :=
          pps_register_source env i (st.priv.pps_client i).pps_info pps_default_params st
        let st := st.setClient i (fun c => { c with pps := pps })
        if IS_ERR pps then (some (PTR_ERR pps), st)
        else
          let err := env.devm_request_irq i
          let st := st.call (.devm_request_irq (st.priv.pps_client i).irq IRQF_TRIGGER_RISING
            (st.priv.pps_client i).pps_info.name)
          if err ≠ 0 then (some err, st) else (none, st)
  else (none, st)

/-- The acquisition loop (source lines 86-127) over the indices still to visit. -/
def probe_lines (env : Env) (gpios_mask : Int) : List Nat → ProbeState → Option Int × ProbeState
  | [], st => (none, st)
  | i :: rest, st =>
    match probe_line env gpios_mask i st with
    | (some err, st) => (some err, st)
    | (none, st) => probe_lines env gpios_mask rest st

/-- The code at label `fail` (source lines 147-156). -/
def probe_fail (err : Int) (st : ProbeState) : ProbeResult :=
  let st := (List.range MAX_GPIOS).foldl
    (fun st i =>
      let client := st.priv.pps_client i
      if client.pps.nonNull then pps_unregister_source client.pps st else st)
    st
  { ret := err, priv := some st.priv, kernel := st.kernel, calls := st.calls,
    action_added := st.action_added, fault := st.fault }

/-- Function `acpi_gpio_pps_client_probe` (source lines 73-157), run with module
parameter `gpios_mask` against the registry `k`. The log messages are left out. -/
def acpi_gpio_pps_client_probe (env : Env) (gpios_mask : Int) (k : Kernel) : ProbeResult :=
  if !env.devm_kzalloc then
    { ret := -ENOMEM, priv := none, kernel := k, calls := [], action_added := false }
  else
    let st : ProbeState := { priv := zero_data, kernel := k, calls := [], action_added := false }
    match probe_lines env gpios_mask (List.range MAX_GPIOS) st with
    | (some err, st) => probe_fail err st
    | (none, st) =>
      match devm_add_action_or_reset env acpi_gpio_pps_client_disable st with
      | (err, st) =>
        if err ≠ 0 then probe_fail err st
        else
          { ret := 0, priv := some st.priv, kernel := st.kernel, calls := st.calls,
            action_added := st.action_added, fault := st.fault }

/-! ## Vocabulary of the specification -/

/-- Number of one bits among the lowest `width` binary digits of `n`. -/
def popcountAux : Nat → Nat → Nat
  | 0, _ => 0
  | width + 1, n => if n = 0 then 0 else n % 2 + popcountAux width (n / 2)

/-- Population count: the number of one bits of `n` (which has at most `n` binary
digits). -/
def popcount (n : Nat) : Nat := popcountAux n n

/-- The loop condition `gpios_mask & (1 << i)` as a truth value. -/
def line_enabled (gpios_mask : Int) (i : Nat) : Bool :=
  decide (Int.land gpios_mask ((1 : Int) <<< (i : Int)) ≠ 0)

/-- The pointers that a clean-up loop over the indices `is` passes to
`pps_unregister_source`: the non-NULL `pps` fields, in index order. -/
def live (priv : acpi_gpio_pps_client_data) (is : List Nat) : List Ptr :=
  (is.map (fun i => (priv.pps_client i).pps)).filter Ptr.nonNull

/-- The clean-up loop shared by `acpi_gpio_pps_client_disable` and the `fail` label,
over an arbitrary list of indices. -/
def unregister_loop (is : List Nat) (st : ProbeState) : ProbeState :=
  is.foldl
    (fun st i =>
      let client := st.priv.pps_client i
      if client.pps.nonNull then pps_unregister_source client.pps st else st)
    st

/-- Are the `pps_unregister_source` calls with the arguments `ps`, made in this order
on the registry `sources`, all defined: each argument must be a source that is
registered at the time of its call. -/
def unregister_ok : List Nat → List Ptr → Bool
  | _, [] => true
  | sources, .obj id :: rest => decide (id ∈ sources) && unregister_ok (sources.erase id) rest
  | _, _ :: _ => false

/-- Effect of a sequence of `pps_unregister_source` calls on the registry list. -/
def erase_all (sources : List Nat) (ps : List Ptr) : List Nat :=
  ps.foldl (fun s p => match p with | .obj id => s.erase id | _ => s) sources

/-- The capability mask that the probe writes to `pps_info.mode`. -/
def registered_mode : Int :=
  Int.lor (Int.lor (Int.lor (Int.lor PPS_CAPTUREASSERT PPS_OFFSETASSERT)
    PPS_ECHOASSERT) PPS_CANWAIT) PPS_TSFMT_TSPEC

/-- An environment in which every external step succeeds. -/
def env_ok : Env :=
  { devm_kzalloc := true,
    devm_gpiod_get := fun i => .ok (100 + i),
    gpiod_to_irq := fun i => 40 + i,
    pps_register_source := fun _ => none,
    devm_request_irq := fun _ => 0,
    devm_add_action := 0 }

/-- Is the argument a call of `pps_unregister_source`. -/
def Call.isUnregister : Call → Bool
  | .pps_unregister_source _ => true
  | _ => false

/-- The capability mask of a `pps_register_source` call. -/
def Call.registeredMode : Call → Option Int
  | .pps_register_source info _ => some info.mode
  | _ => none

/-- Is the pointer a valid object. -/
def Ptr.isObj : Ptr → Bool
  | .obj _ => true
  | _ => false

/-- A slot all four fields of which hold valid values: a line descriptor, a
registered source handle, an interrupt number that the probe accepted (not
negative) and the source information (a capability mask). -/
def slot_populated (c : acpi_gpio_pps_client_device_data) : Bool :=
  c.gpio.isObj && c.pps.isObj && decide (0 ≤ c.irq) && decide (c.pps_info.mode ≠ 0)

/-- A slot none of whose four fields is set. -/
def slot_empty (c : acpi_gpio_pps_client_device_data) : Bool :=
  decide (c.gpio = .null) && decide (c.pps = .null) && decide (c.irq = 0) &&
    decide (c.pps_info.mode = 0) && decide (c.pps_info.name = "")

/-- Every external step succeeds, except that `pps_register_source` fails with
`-EBUSY` for every line. -/
def env_register_fails : Env :=
  { env_ok with pps_register_source := fun _ => some ⟨-EBUSY, by decide⟩ }

/-- Every external step succeeds, except that `devm_add_action` fails with `-ENOMEM`. -/
def env_add_action_fails : Env :=
  { env_ok with devm_add_action := -ENOMEM }

/-- Every external step succeeds, except that `pps_register_source` fails with
`-EBUSY` for line 1. -/
def env_register_fails_line1 : Env :=
  { env_ok with pps_register_source := fun i =>
      if i = 1 then some ⟨-EBUSY, by decide⟩ else none }

/-- Line 0 is absent (`devm_gpiod_get` yields `ERR_PTR(-ENOENT)`), every other step
succeeds. -/
def env_line0_absent : Env :=
  { env_ok with devm_gpiod_get := fun i =>
      if i = 0 then .error ⟨-ENOENT, by decide⟩ else .ok (100 + i) }

/-- Line 0 is not ready yet (`devm_gpiod_get` yields `ERR_PTR(-EPROBE_DEFER)`), every
other step succeeds. -/
def env_line0_deferred : Env :=
  { env_ok with devm_gpiod_get := fun i =>
      if i = 0 then .error ⟨-EPROBE_DEFER, by decide⟩ else .ok (100 + i) }

/-- A table whose slot 0 holds the registered source 0, with that source in the
registry. -/
def state_one_source : ProbeState :=
  { priv := { pps_client := fun i =>
      if i = 0 then
        { gpio := .obj 100, pps := .obj 0, irq := 40,
          pps_info := { name := "acpi_gpio_pps_client.GPIO00", mode := registered_mode } }
      else zero_device_data },
    kernel := { sources := [0], next_id := 1 },
    calls := [],
    action_added := true }

end AcpiGpioPpsClient


namespace PpsTool

open LinuxPps

/-! ## The client: `PPS::Device` (PPS.cxx) and `prepare`, `print`, `main` (Main.cxx) -/

/-- A `std::string`; `size()` is the length of the list. -/
abbrev CxxString : Type := List Char

/-- Value of `EINTR` in `errno.h`. -/
def EINTR : Int := 4
/-- Value of `EIO` in `errno.h`. -/
def EIO : Int := 5

/-- Constant `DefaultDevice` of Main.cxx. -/
def DefaultDevice : CxxString := "/dev/pps0".toList

/-- Record `struct timespec`. -/
structure timespec where
  tv_sec : Int
  tv_nsec : Int
deriving DecidableEq

/-- An `ioctl` request on the device, with the data the caller passes in. For
`PPS_FETCH` this is the `timeout` member of the request buffer, all three words of
it; the `info` member is only written by the kernel. -/
inductive Request where
  | PPS_GETPARAMS
  | PPS_SETPARAMS (params : pps_kparams)
  | PPS_GETCAP
  | PPS_FETCH (timeout : pps_ktime)
deriving DecidableEq

/-- The result of `Device::error()`: the empty string or `strerror(e)`. -/
inductive Text where
  | empty
  | strerror (e : Int)
deriving DecidableEq

/-- A line written to `std::cout` or `std::cerr`, by the statement that writes it. -/
inductive Line where
  /-- "error: device ... is not accessable" -/
  | not_accessable (devname : CxxString)
  /-- "device: ... (working)" -/
  | working (devname : CxxString)
  /-- "modes: PPS_CAPTUREASSERT (notsupported)" -/
  | captureassert_notsupported
  /-- "modes: PPS_CAPTUREASSERT (supported)" -/
  | captureassert_supported
  /-- "error: PPS_CAPTUREASSERT query failed (...)" -/
  | query_failed (msg : Text)
  /-- "error: unable to query parameters (...)" -/
  | parameters_failed (msg : Text)
  /-- "error: unable to set parameters (...)" -/
  | set_parameters_failed (msg : Text)
  /-- "warn: fetch() recieved INTR signal" -/
  | fetch_intr
  /-- "error: fetch() error ..." with `err` and `strerror(errno)` -/
  | fetch_error (err : Int) (msg : Text)
  /-- the report line "device ... - assert ... - sequence ... - clear ... - sequence ..." -/
  | report (devname : CxxString) (assert_tu : pps_ktime) (assert_sequence : Nat)
      (clear_tu : pps_ktime) (clear_sequence : Nat)
  /-- the usage screen -/
  | usage (appname : CxxString)
  /-- "error: ..." with the message of the exception thrown by the constructor -/
  | exception (msg : Text)
deriving DecidableEq

/-- Something the process does that is visible from outside, in order of time. -/
inductive Event where
  | sys_open (path : CxxString)
  | ioctl (fd : Int) (req : Request)
  | sleep_for (seconds : Nat)
  | cout (line : Line)
  | cerr (line : Line)
deriving DecidableEq

/-- The operating system as the client sees it. An `ioctl` is answered according to
the number of `ioctl` calls the process has issued before it. -/
structure OS where
  /-- result of `::open(path, O_RDWR)`: a descriptor, or the `errno` of the failure -/
  sys_open : CxxString → Except Int Int
  /-- answer to `PPS_GETCAP`: the capability mask, or the `errno` of the failure -/
  getcap : Nat → Except Int Int
  /-- answer to `PPS_GETPARAMS` -/
  getparams : Nat → Except Int pps_kparams
  /-- answer to `PPS_SETPARAMS`: `none` on success, or the `errno` of the failure -/
  setparams : Nat → pps_kparams → Option Int
  /-- answer to `PPS_FETCH`: the content of the request buffer after the call -/
  fetch : Nat → pps_ktime → Except Int pps_fdata
  /-- indeterminate initial content of the local `params` of `prepare` -/
  stack_params : pps_kparams
  /-- indeterminate initial content of the local `data` of the `k`-th call of `print` -/
  stack_data : Nat → pps_fdata
  /-- indeterminate initial content of the local `tmp_fdata` of `Device::fetch`, for
  the call that issues the `ioctl` of the given number -/
  stack_tmp_fdata : Nat → pps_fdata

/-- State of the process outside the device object: the events so far, the number
of `ioctl` calls among them, and the C variable `errno`. -/
structure World where
  events : List Event
  ioctls : Nat
  errno : Int
deriving DecidableEq

/-- The world at process start. -/
def World.start : World := { events := [], ioctls := 0, errno := 0 }

/-- Append an event. -/
def World.emit (w : World) (e : Event) : World :=
  { w with events := w.events ++ [e] }

/-- Record an `ioctl` call. -/
def World.ioctl (w : World) (fd : Int) (req : Request) : World :=
  { w with events := w.events ++ [.ioctl fd req], ioctls := w.ioctls + 1 }

/-- Class `PPS::Device`: its private properties. -/
structure Device where
  _devname : CxxString
  _fd : Int
  _err : Int
deriving DecidableEq

/-- Method `Device::valid`. -/
def Device.valid (d : Device) : Bool :=
  decide (d._fd > -1) && !(decide (d._err ≠ 0))

/-- Method `Device::error`. -/
def Device.error (d : Device) : Text × Device :=
  if d._err ≠ 0 then (.strerror d._err, { d with _err := 0 }) else (.empty, d)

/-- Method `Device::deviceName`. -/
def Device.deviceName (d : Device) : CxxString := d._devname

/-- Method `Device::parameters`; the second component of the result is the device
after the call, the third the reference argument `params` after the call. -/
def Device.parameters (os : OS) (d : Device) (params : pps_kparams) (w : World) :
    Bool × Device × pps_kparams × World :=
  if d.valid then
    let w1 := w.ioctl d._fd .PPS_GETPARAMS
    match os.getparams w.ioctls with
    | .ok tmp_params => (true, d, tmp_params, w1)
    | .error e =>
      let w2 := { w1 with errno := e }
      (false, { d with _err := w2.errno }, params, w2)
  else (false, d, params, w)

/-- Method `Device::setParameters`. -/
def Device.setParameters (os : OS) (d : Device) (params : pps_kparams) (w : World) :
    Bool × Device × World :=
  if d.valid then
    let tmp_params := params
    let w1 := w.ioctl d._fd (.PPS_SETPARAMS tmp_params)
    match os.setparams w.ioctls tmp_params with
    | none => (true, d, w1)
    | some e =>
      let w2 := { w1 with errno := e }
      (false, { d with _err := w2.errno }, w2)
  else (false, d, w)

/-- Method `Device::caps`; the third component is the reference argument `mode`
after the call. -/
def Device.caps (os : OS) (d : Device) (mode : Int) (w : World) :
    Bool × Device × Int × World :=
  if d.valid then
    let w1 := w.ioctl d._fd .PPS_GETCAP
    match os.getcap w.ioctls with
    | .ok tmp => (true, d, tmp, w1)
    | .error e =>
      let w2 := { w1 with errno := e }
      (false, { d with _err := w2.errno }, mode, w2)
  else (false, d, mode, w)

/-- The request buffer of `Device::fetch` (PPS.cxx lines 108-111): the local
`tmp_fdata` is not initialised, then `timeout.sec` and `timeout.nsec` are assigned;
`timeout.flags` and `info` keep their indeterminate content. -/
def Device.fetch_request (tmp_fdata : pps_fdata) (timeout : timespec) : pps_fdata :=
  { tmp_fdata with
    timeout := { tmp_fdata.timeout with sec := timeout.tv_sec, nsec := timeout.tv_nsec } }

/-- Method `Device::fetch`; the third component is the reference argument `fdata`
after the call. -/
def Device.fetch (os : OS) (d : Device) (fdata : pps_fdata) (timeout : timespec) (w : World) :
    Bool × Device × pps_fdata × World :=
  if d.valid then
    let tmp_fdata := Device.fetch_request (os.stack_tmp_fdata w.ioctls) timeout
    let w1 := w.ioctl d._fd (.PPS_FETCH tmp_fdata.timeout)
    match os.fetch w.ioctls tmp_fdata.timeout with
    | .ok tmp_fdata => (true, d, tmp_fdata, w1)
    | .error e =>
      let w2 := { w1 with errno := e }
      (false, { d with _err := w2.errno }, fdata, w2)
  else (false, d, fdata, w)

/-- Method `Device::open`, called by the constructor on `_fd = -1`, `_err = 0`. -/
def Device.open (os : OS) (d : Device) (w : World) : Bool × Device × World :=
  let w1 := w.emit (.sys_open d._devname)
  match os.sys_open d._devname with
  | .ok result =>
    if result > -1 then
      let d1 := { d with _fd := result, _err := 0 }
      (d1.valid, d1, w1)
    else
      let d1 := { d with _fd := -1, _err := w1.errno }
      (d1.valid, d1, w1)
  | .error e =>
    let w2 := { w1 with errno := e }
    let d1 := { d with _fd := -1, _err := w2.errno }
    (d1.valid, d1, w2)

/-- Constructor `Device::Device`: the device, or the message of the exception. -/
def Device.new (os : OS) (devname : CxxString) (w : World) : Except Text Device × World :=
  match Device.open os { _devname := devname, _fd := -1, _err := 0 } w with
  | (true, d, w) => (.ok d, w)
  | (false, _, w) => (.error (.strerror w.errno), w)

/-- Conversion of a `bool` to `int32_t`. -/
def boolToInt (b : Bool) : Int := if b then 1 else 0

/-- Function `prepare` (Main.cxx lines 17-68). The result holds the return value,
the device, and the reference argument `supported_modes` after the call. -/
def prepare (os : OS) (pps_source : Device) (offset_assert : pps_ktime) (supported_modes : Int)
    (w : World) : Int × Device × Int × World :=
  let params := os.stack_params
  if !pps_source.valid then
    (boolToInt false, pps_source, supported_modes,
      w.emit (.cerr (.not_accessable pps_source.deviceName)))
  else
    let w := w.emit (.cerr (.working pps_source.deviceName))
    match pps_source.caps os supported_modes w with
    | (false, pps_source, supported_modes, w) =>
      let (msg, pps_source) := pps_source.error
      (boolToInt false, pps_source, supported_modes, w.emit (.cerr (.query_failed msg)))
    | (true, pps_source, supported_modes, w) =>
      if Int.land supported_modes PPS_CAPTUREASSERT = 0 then
        (boolToInt false, pps_source, supported_modes,
          w.emit (.cerr .captureassert_notsupported))
      else
        let w := w.emit (.cout .captureassert_supported)
        match pps_source.parameters os params w with
        | (false, pps_source, _, w) =>
          let (msg, pps_source) := pps_source.error
          (boolToInt false, pps_source, supported_modes,
            w.emit (.cerr (.parameters_failed msg)))
        | (true, pps_source, params, w) =>
          let params := { params with mode := Int.lor params.mode PPS_CAPTUREASSERT }
          let params :=
            if Int.land supported_modes PPS_OFFSETASSERT ≠ 0 then
              { params with mode := Int.lor params.mode PPS_OFFSETASSERT,
                            assert_off_tu := offset_assert }
            else params
          match pps_source.setParameters os params w with
          | (false, pps_source, w) =>
            let (msg, pps_source) := pps_source.error
            (boolToInt false, pps_source, supported_modes,
              w.emit (.cerr (.set_parameters_failed msg)))
          | (true, pps_source, w) => (boolToInt true, pps_source, supported_modes, w)

/-- The `while (true)` loop of `print` (Main.cxx lines 76-102); `fuel` bounds the
number of rounds. The result is `none` when the bound is reached, otherwise whether
the loop was left through `break` (`true`) or through `return false`. -/
def print_loop (os : OS) (supported_modes : Int) (timeout : timespec) :
    Nat → Device → pps_fdata → World → Option (Bool × Device × pps_fdata × World)
  | 0, _, _, _ => none
  | fuel + 1, pps_source, data, w =>
    let w := if Int.land supported_modes PPS_CANWAIT ≠ 0 then w else w.emit (.sleep_for 1)
    match pps_source.fetch os data timeout w with
    | (ok, pps_source, data, w) =>
      let err : Int := boolToInt ok
      if err < 0 then
        if err = -EINTR then
          print_loop os supported_modes timeout fuel pps_source data (w.emit (.cerr .fetch_intr))
        else
          some (false, pps_source, data,
            w.emit (.cerr (.fetch_error err (.strerror w.errno))))
      else some (true, pps_source, data, w)

/-- Function `print` (Main.cxx lines 70-114); `data` is the indeterminate initial
content of the local of that name. -/
def print (os : OS) (fuel : Nat) (pps_source : Device) (supported_modes : Int) (data : pps_fdata)
    (w : World) : Option (Bool × Device × World) :=
  let timeout : timespec := { tv_sec := 3, tv_nsec := 0 }
  match print_loop os supported_modes timeout fuel pps_source data w with
  | none => none
  | some (false, pps_source, _, w) => some (false, pps_source, w)
  | some (true, pps_source, data, w) =>
    some (true, pps_source,
      w.emit (.cout (.report pps_source.deviceName data.info.assert_tu data.info.assert_sequence
        data.info.clear_tu data.info.clear_sequence)))

/-- The argument loop of `main` (Main.cxx lines 133-148): `none` when "--help" is
met, otherwise the device name after the remaining arguments. -/
def main_args : List CxxString → CxxString → Option CxxString
  | [], devname => some devname
  | arg :: rest, devname =>
    if arg = "--help".toList then none
    else if arg.length > 9 ∧ arg.take 9 = "--device=".toList then main_args rest (arg.drop 9)
    else main_args rest devname

/-- The run loop of `main` (Main.cxx lines 163-167), at its `k`-th round: the exit
status (`none` while the process is still running after `fuel` rounds) and the
world reached. -/
def main_loop (os : OS) (modes : Int) : Nat → Nat → Device → World → Option Int × World
  | 0, _, _, w => (none, w)
  | fuel + 1, k, pps, w =>
    match print os (fuel + 1) pps modes (os.stack_data k) w with
    | none => (none, w)
    | some (false, _, w) => (some 1, w)
    | some (true, pps, w) => main_loop os modes fuel (k + 1) pps w

/-- Function `main` (Main.cxx lines 125-169) on the argument vector `argv`: the exit
status (`none` while the process is still running after `fuel` rounds of the run
loop) and the world reached. The destructor of the device is left out. -/
def main (os : OS) (argv : List CxxString) (fuel : Nat) : Option Int × World :=
  let offset : pps_ktime := { sec := 0, nsec := 0, flags := 0 }
  let modes : Int := 0
  match main_args argv.tail DefaultDevice with
  | none => (some 0, World.start.emit (.cout (.usage (argv.headD []))))
  | some devname =>
    match Device.new os devname World.start with
    | (.error msg, w) => (some 1, w.emit (.cerr (.exception msg)))
    | (.ok pps, w) =>
      match prepare os pps offset modes w with
      | (ret, pps, modes, w) =>
        if ret = 0 then (some 1, w)
        else main_loop os modes fuel 0 pps w

/-! ## Vocabulary of the specification -/

/-- Is the event a report line on standard output. -/
def Event.isReport : Event → Bool
  | .cout (.report _ _ _ _ _) => true
  | _ => false

/-- Is the event an `ioctl` call. -/
def Event.isIoctl : Event → Bool
  | .ioctl _ _ => true
  | _ => false

/-- The parameters of a `PPS_SETPARAMS` request. -/
def Event.setParams : Event → Option pps_kparams
  | .ioctl _ (.PPS_SETPARAMS p) => some p
  | _ => none

/-- The report line that `print` writes for the fetched data `d`. -/
def reportLine (devname : CxxString) (d : pps_fdata) : Event :=
  .cout (.report devname d.info.assert_tu d.info.assert_sequence d.info.clear_tu
    d.info.clear_sequence)

/-- An open, error-free device on descriptor 3. -/
def device_ok : Device := { _devname := DefaultDevice, _fd := 3, _err := 0 }

/-- A time value of zero. -/
def ktime_zero : pps_ktime := { sec := 0, nsec := 0, flags := 0 }

/-- Fetch data that is all zero (one possible content of an uninitialised local). -/
def fdata_zero : pps_fdata :=
  { info := { assert_sequence := 0, clear_sequence := 0, assert_tu := ktime_zero,
              clear_tu := ktime_zero, current_mode := 0 },
    timeout := ktime_zero }

/-- Fetch data of a captured assert event: second 1700000000, sequence number 7. -/
def fdata_event : pps_fdata :=
  { info := { assert_sequence := 7, clear_sequence := 0,
              assert_tu := { sec := 1700000000, nsec := 250, flags := 0 },
              clear_tu := ktime_zero, current_mode := 0x11 },
    timeout := { sec := 3, nsec := 0, flags := 0 } }

/-- Parameters as the PPS core holds them for a source registered with the default
parameters PPS_CAPTUREASSERT | PPS_OFFSETASSERT. -/
def kparams_default : pps_kparams :=
  { api_version := 1, mode := 0x11, assert_off_tu := ktime_zero, clear_off_tu := ktime_zero }

/-- An operating system on which the device opens as descriptor 3, the capability
is `cap`, parameters are read and written without error, and the `ioctl` calls
number `first`, ..., `first + n - 1` (all of them `PPS_FETCH`) fail with `errno`
`e`, while every other `PPS_FETCH` delivers `fdata_event`. -/
def os_fetch_failing (cap : Int) (first n : Nat) (e : Int) : OS :=
  { sys_open := fun _ => .ok 3,
    getcap := fun _ => .ok cap,
    getparams := fun _ => .ok kparams_default,
    setparams := fun _ _ => none,
    fetch := fun j _ => if first ≤ j ∧ j < first + n then .error e else .ok fdata_event,
    stack_params := kparams_default,
    stack_data := fun _ => fdata_zero,
    stack_tmp_fdata := fun _ => fdata_zero }

/-- An operating system on which the device opens as descriptor 3, the capability
is `cap`, the stored parameters are `p`, and every request succeeds. -/
def os_session (cap : Int) (p : pps_kparams) : OS :=
  { sys_open := fun _ => .ok 3,
    getcap := fun _ => .ok cap,
    getparams := fun _ => .ok p,
    setparams := fun _ _ => none,
    fetch := fun _ _ => .ok fdata_event,
    stack_params := kparams_default,
    stack_data := fun _ => fdata_zero,
    stack_tmp_fdata := fun _ => fdata_zero }

/-- Stored parameters with only PPS_CAPTURECLEAR in the mode and a clear offset. -/
def kparams_clear : pps_kparams :=
  { api_version := 1, mode := 0x02, assert_off_tu := ktime_zero,
    clear_off_tu := { sec := 0, nsec := 125, flags := 0 } }

end PpsTool


namespace PpsTool

open LinuxPps

/-! ## Further vocabulary for the client -/

/-- Does the argument select a device: "--device=" followed by a non-empty path. -/
def is_device_arg (arg : CxxString) : Bool :=
  decide (arg.length > 9) && decide (arg.take 9 = "--device=".toList)

/-- The device path that the command line `args` (the arguments after the program
name) asks for: the text after "--device=" in the last argument of that form, or
the default path when there is none. -/
def requested_device (args : List CxxString) : CxxString :=
  match (args.filter is_device_arg).getLast? with
  | some arg => arg.drop 9
  | none => DefaultDevice

/-- Is the event an `open` call. -/
def Event.isOpen : Event → Bool
  | .sys_open _ => true
  | _ => false

/-- One of the four requests of `PPS::Device`, with its input argument. -/
inductive DeviceCall where
  | parameters
  | setParameters (params : pps_kparams)
  | caps
  | fetch (timeout : timespec)
deriving DecidableEq

/-- The variables that a caller passes by reference to `parameters`, `caps` and
`fetch`. -/
structure Outputs where
  params : pps_kparams
  mode : Int
  fdata : pps_fdata
deriving DecidableEq

/-- One request on the device: its result, the device, the caller's variables and
the world after it. -/
def Device.call (os : OS) (d : Device) (c : DeviceCall) (out : Outputs) (w : World) :
    Bool × Device × Outputs × World :=
  match c with
  | .parameters =>
    match d.parameters os out.params w with
    | (r, d, params, w) => (r, d, { out with params := params }, w)
  | .setParameters p =>
    match d.setParameters os p w with
    | (r, d, w) => (r, d, out, w)
  | .caps =>
    match d.caps os out.mode w with
    | (r, d, mode, w) => (r, d, { out with mode := mode }, w)
  | .fetch timeout =>
    match d.fetch os out.fdata timeout w with
    | (r, d, fdata, w) => (r, d, { out with fdata := fdata }, w)

/-- A sequence of requests on the device, none of them `error()`: the results in
order, and the device, the caller's variables and the world at the end. -/
def Device.calls (os : OS) : List DeviceCall → Device → Outputs → World →
    List Bool × Device × Outputs × World
  | [], d, out, w => ([], d, out, w)
  | c :: rest, d, out, w =>
    match Device.call os d c out w with
    | (r, d, out, w) =>
      match Device.calls os rest d out w with
      | (rs, d, out, w) => (r :: rs, d, out, w)

/-- Modelled from the spec: the Capture Source behind the device file is kernel
code outside the repository. Section 4.3 of the specification gives it an
advertised capability and the negotiated parameters. -/
structure CaptureSource where
  capability : Int
  params : pps_kparams
deriving DecidableEq

/-- Modelled from the spec: `setParameters(req)` "computes req ∧ capability before
committing" (section 4.3); the other fields of the request are taken as they are. -/
def CaptureSource.setParameters (s : CaptureSource) (req : pps_kparams) : CaptureSource :=
  { s with params := { req with mode := Int.land req.mode s.capability } }

/-- Modelled from the spec: `getParameters()` reads the negotiated parameters. -/
def CaptureSource.getParameters (s : CaptureSource) : pps_kparams := s.params

/-- Modelled from the spec: `capability()` returns the advertised bitmask. -/
def CaptureSource.getCapability (s : CaptureSource) : Int := s.capability

/-- The source after the `PPS_SETPARAMS` requests among the events have reached it. -/
def CaptureSource.after (s : CaptureSource) (events : List Event) : CaptureSource :=
  (events.filterMap Event.setParams).foldl CaptureSource.setParameters s

/-- The source that the driver registers: capability `pps_info.mode`, parameters
with the mode `pps_default_params`. -/
def driver_source : CaptureSource :=
  { capability := AcpiGpioPpsClient.registered_mode,
    params := { api_version := 1, mode := Int.lor PPS_CAPTUREASSERT PPS_OFFSETASSERT,
                assert_off_tu := ktime_zero, clear_off_tu := ktime_zero } }

/-- An operating system whose device file is backed by the source `s` as it stands
before the negotiation. -/
def os_of_source (s : CaptureSource) : OS :=
  os_session s.getCapability s.getParameters

end PpsTool

namespace AcpiGpioPpsClient

open LinuxPps

/-! ## The interrupt handler of the PPS client driver -/

/-- Value `IRQ_NONE` of `enum irqreturn`. -/
def IRQ_NONE : Int := 0
/-- Value `IRQ_HANDLED` of `enum irqreturn`. -/
def IRQ_HANDLED : Int := 1

/-- Record `struct pps_event_time`: the time captured by `pps_get_ts`. -/
structure pps_event_time where
  tv_sec : Int
  tv_nsec : Int
deriving DecidableEq

/-- A call of the interrupt handler into the kernel, with its arguments. -/
inductive IrqCall where
  | pps_get_ts
  | gpiod_get_value (gpio : Ptr)
  | pps_event (pps : Ptr) (ts : pps_event_time) (event : Int)
      (data : acpi_gpio_pps_client_device_data)
deriving DecidableEq

/-- What the kernel answers during one run of the handler: the time that
`pps_get_ts` stores and the value that `gpiod_get_value` returns (0, 1, or a negative
error code). -/
structure IrqEnv where
  pps_get_ts : pps_event_time
  gpiod_get_value : Int

/-- Function `irq_handler` (source lines 41-56) for the slot `client` passed as
`data`: its return value and the calls it makes, in order. -/
def irq_handler (env : IrqEnv) (client : acpi_gpio_pps_client_device_data) :
    Int × List IrqCall :=
  let calls : List IrqCall := []
  -- pps_get_ts(&ts);
  let ts := env.pps_get_ts
  let calls := calls ++ [.pps_get_ts]
  -- rising_edge = gpiod_get_value(client->gpio);
  let rising_edge := env.gpiod_get_value
  let calls := calls ++ [.gpiod_get_value client.gpio]
  let calls :=
    if rising_edge ≠ 0 then calls ++ [.pps_event client.pps ts PPS_CAPTUREASSERT client]
    else calls ++ [.pps_event client.pps ts PPS_CAPTURECLEAR client]
  (IRQ_HANDLED, calls)

/-- Is the call a `pps_event`. -/
def IrqCall.isEvent : IrqCall → Bool
  | .pps_event _ _ _ _ => true
  | _ => false

end AcpiGpioPpsClient

namespace Pwdog

/-! ## The PCI watchdog driver (`pci_watchdog/pwdog.c`) -/

/-- Value of `HEARTBEAT`. -/
def HEARTBEAT : Int := 4
/-- Value of `NOWAYOUT`. -/
def NOWAYOUT : Bool := false
/-- Value of `PCI_BAR`. -/
def PCI_BAR : Nat := 0
/-- Value of `PCI_BAR_SIZE`. -/
def PCI_BAR_SIZE : Nat := 256
/-- Flag `IRQF_SHARED` of `linux/interrupt.h`. -/
def IRQF_SHARED : Int := 0x80
/-- Kernel error number `ENOMEM`. -/
def ENOMEM : Int := 12
/-- Kernel error number `EFAULT`. -/
def EFAULT : Int := 14

/-- Fields of `struct watchdog_device` that the probe assigns (`parent`, `info` and
`ops` receive addresses of fixed objects). -/
structure watchdog_device where
  timeout : Int
  min_timeout : Int
  max_timeout : Int
deriving DecidableEq

/-- Record `struct pwdog_data`; `pdev` is `false` while the pointer is NULL,
`base_addr` is `none` while it is NULL. -/
structure pwdog_data where
  pdev : Bool
  base_addr : Option Nat
  wdd : watchdog_device
deriving DecidableEq

/-- The record as `devm_kzalloc` leaves it. -/
def zero_data : pwdog_data :=
  { pdev := false, base_addr := none,
    wdd := { timeout := 0, min_timeout := 0, max_timeout := 0 } }

/-- A call of the driver into the kernel. -/
inductive Call where
  | pci_enable_device
  | pci_set_dma_mask (bits : Nat)
  | pci_set_consistent_dma_mask (bits : Nat)
  | pci_iomap (bar : Nat) (maxlen : Nat)
  | devm_request_irq (irqflags : Int)
  /-- the parameter is an `unsigned int` -/
  | watchdog_init_timeout (timeout_parm : Nat)
  | watchdog_set_nowayout (nowayout : Bool)
  | watchdog_stop_on_reboot
  | watchdog_stop_on_unregister
  | watchdog_set_drvdata
  | devm_watchdog_register_device
  | devm_add_action_or_reset
  | dev_info_release_resources
  | pci_set_drvdata
  | pci_disable_device
deriving DecidableEq

/-- Outcomes of the external calls of one `pwdog_probe`. Integer results are
negative on failure. -/
structure Env where
  /-- does `devm_kzalloc` return memory -/
  devm_kzalloc : Bool
  /-- result of `pci_enable_device` -/
  pci_enable_device : Int
  /-- result of `pci_set_dma_mask` for a mask of the given width -/
  pci_set_dma_mask : Nat → Int
  /-- result of `pci_iomap`: the mapped address, or `none` for NULL -/
  pci_iomap : Option Nat
  /-- result of `devm_request_irq` -/
  devm_request_irq : Int
  /-- result of `devm_watchdog_register_device` -/
  devm_watchdog_register_device : Int
  /-- result of the `devm_add_action` inside `devm_add_action_or_reset` -/
  devm_add_action : Int

/-- State threaded through the probe: the private data, whether the PCI device is
enabled, and the calls made so far. -/
structure State where
  priv : pwdog_data
  enabled : Bool
  calls : List Call
deriving DecidableEq

/-- What the probe leaves behind. `ret` is `none` when the probe does not return
because it dereferences a NULL pointer. -/
structure Result where
  ret : Option Int
  enabled : Bool
  calls : List Call
deriving DecidableEq

/-- Append a call to the trace. -/
def State.call (st : State) (c : Call) : State :=
  { st with calls := st.calls ++ [c] }

/-- Function `pwdog_disable` (source lines 95-100): it reads `priv->pdev` to reach
the device for its message; `none` when that pointer is NULL. -/
def pwdog_disable (st : State) : Option State :=
  if st.priv.pdev then some (st.call .dev_info_release_resources) else none

/-- Kernel function `devm_add_action_or_reset`: when `devm_add_action` fails the
action is run at once. -/
def devm_add_action_or_reset (env : Env) (action : State → Option State) (st : State) :
    Int × Option State :=
  let st := st.call .devm_add_action_or_reset
  let ret := env.devm_add_action
  if ret ≠ 0 then (ret, action st) else (ret, some st)

/-- The code at label `fail` (source lines 171-174). -/
def probe_fail (err : Int) (st : State) : Result :=
  let st := { st.call .pci_disable_device with enabled := false }
  { ret := some err, enabled := st.enabled, calls := st.calls }

/-- Function `pwdog_probe` (source lines 102-175) with the module parameters
`heartbeat` and `nowayout`. The log messages of the probe itself are left out. -/
def pwdog_probe (env : Env) (heartbeat : Int) (nowayout : Bool) : Result :=
  if !env.devm_kzalloc then { ret := some (-ENOMEM), enabled := false, calls := [] }
  else
    let st : State := { priv := zero_data, enabled := false, calls := [] }
    let err := env.pci_enable_device
    let st := st.call .pci_enable_device
    if err < 0 then { ret := some err, enabled := st.enabled, calls := st.calls }
    else
      let st := { st with enabled := true }
      -- the DMA configuration; `dma` is `some err` when the code leaves through `goto fail`
      let (dma, st) : Option Int × State :=
        let st := st.call (.pci_set_dma_mask 64)
        if env.pci_set_dma_mask 64 < 0 then
          let st := st.call (.pci_set_dma_mask 32)
          if env.pci_set_dma_mask 32 < 0 then (some (-EFAULT), st)
          else (none, st.call (.pci_set_consistent_dma_mask 32))
        else (none, st.call (.pci_set_consistent_dma_mask 64))
      match dma with
      | some err => probe_fail err st
      | none =>
        let st := st.call (.pci_iomap PCI_BAR PCI_BAR_SIZE)
        let st := { st with priv := { st.priv with base_addr := env.pci_iomap } }
        if st.priv.base_addr = none then probe_fail err st
        else
          let err := env.devm_request_irq
          let st := st.call (.devm_request_irq IRQF_SHARED)
          if err < 0 then probe_fail err st
          else
            let st := { st with priv := { st.priv with wdd :=
              { timeout := HEARTBEAT, min_timeout := 1, max_timeout := 32400 } } }
            let st := st.call (.watchdog_init_timeout (heartbeat % 2 ^ 32).toNat)
            let st := st.call (.watchdog_set_nowayout nowayout)
            let st := st.call .watchdog_stop_on_reboot
            let st := st.call .watchdog_stop_on_unregister
            let st := st.call .watchdog_set_drvdata
            let err := env.devm_watchdog_register_device
            let st := st.call .devm_watchdog_register_device
            if err < 0 then probe_fail err st
            else
              match devm_add_action_or_reset env pwdog_disable st with
              | (_, none) => { ret := none, enabled := st.enabled, calls := st.calls ++
                  [.devm_add_action_or_reset] }
              | (err, some st) =>
                if err < 0 then probe_fail err st
                else
                  let st := { st with priv := { st.priv with pdev := true } }
                  let st := st.call .pci_set_drvdata
                  { ret := some 0, enabled := st.enabled, calls := st.calls }

/-- Every external step succeeds. -/
def env_ok : Env :=
  { devm_kzalloc := true, pci_enable_device := 0, pci_set_dma_mask := fun _ => 0,
    pci_iomap := some 4096, devm_request_irq := 0, devm_watchdog_register_device := 0,
    devm_add_action := 0 }

/-- Every external step succeeds, except that `pci_iomap` returns NULL. -/
def env_iomap_fails : Env := { env_ok with pci_iomap := none }

/-- Every external step succeeds, except that `devm_add_action` fails with
`-ENOMEM`. -/
def env_add_action_fails : Env := { env_ok with devm_add_action := -ENOMEM }

/-- The external call `pci_enable_device` fails with `-EIO` (-5). -/
def env_enable_fails : Env := { env_ok with pci_enable_device := -5 }

end Pwdog

namespace Sc4ListGpios

/-! ## The GPIO listing driver (`acpi_gpio/driver/sc4-list-gpios.c`) -/

/-- Value of `DRIVER_NAME`. -/
def DRIVER_NAME : String := "sc4_list_gpios"
/-- Value of `DEVICE_NODE`. -/
def DEVICE_NODE : String := "MEX0001"
/-- Value of `GPIO_STR_ANY`. -/
def GPIO_STR_ANY : String := "any"
/-- Value of `GPIO_STR_IN`. -/
def GPIO_STR_IN : String := "input"
/-- Value of `GPIO_STR_OUT`. -/
def GPIO_STR_OUT : String := "output"

/-- Kernel error number `ENOMEM`. -/
def ENOMEM : Int := 12
/-- Kernel error number `EINVAL`. -/
def EINVAL : Int := 22
/-- Kernel error number `ENOENT`. -/
def ENOENT : Int := 2

/-- ACPICA status `AE_OK`. -/
def AE_OK : Nat := 0
/-- ACPICA status `AE_CTRL_TERMINATE`. -/
def AE_CTRL_TERMINATE : Nat := 0x4004
/-- ACPICA resource type `ACPI_RESOURCE_TYPE_GPIO`. -/
def ACPI_RESOURCE_TYPE_GPIO : Nat := 17
/-- ACPICA resource type `ACPI_RESOURCE_TYPE_IRQ`. -/
def ACPI_RESOURCE_TYPE_IRQ : Nat := 0
/-- ACPICA value `ACPI_IO_RESTRICT_NONE`. -/
def ACPI_IO_RESTRICT_NONE : Nat := 0
/-- ACPICA value `ACPI_IO_RESTRICT_INPUT`. -/
def ACPI_IO_RESTRICT_INPUT : Nat := 1
/-- ACPICA value `ACPI_IO_RESTRICT_OUTPUT`. -/
def ACPI_IO_RESTRICT_OUTPUT : Nat := 2

/-- Type `enum gpio_direction`. -/
inductive gpio_direction where
  | GPIO_DIR_ANY
  | GPIO_DIR_IN
  | GPIO_DIR_OUT
deriving DecidableEq

open gpio_direction

/-- Function `sc4_list_gpios_dir_to_str` (source lines 58-70); the `default` branch
is not reached by a value of the enumeration. -/
def sc4_list_gpios_dir_to_str : gpio_direction → String
  | GPIO_DIR_ANY => GPIO_STR_ANY
  | GPIO_DIR_IN => GPIO_STR_IN
  | GPIO_DIR_OUT => GPIO_STR_OUT

/-- Fields of `struct acpi_resource` that the driver reads: the type and, for a
GPIO resource, `data.gpio.io_restriction`. -/
structure acpi_resource where
  type : Nat
  io_restriction : Nat
deriving DecidableEq

/-- A `union acpi_object` as the driver inspects it: a string (`string.pointer`,
whose length is `string.length`), a package with its elements, or an object of
another type. -/
inductive acpi_object where
  | string (pointer : List Char)
  | package (elements : List acpi_object)
  | other (type : Nat)

/-- The ACPI companion device: the status with which the evaluation of `_CRS`
ends, the resources that `_CRS` lists, and the elements of the package at
`data.pointer` (`none` when that pointer is NULL). -/
structure acpi_device where
  crs_status : Nat
  resources : List acpi_resource
  data_pointer : Option (List acpi_object)

/-- Record `struct sc4_list_gpios_acpi_gpio_info`. -/
structure sc4_list_gpios_acpi_gpio_info where
  num : Int
  idx : Int
  dir : gpio_direction
  found : Bool
deriving DecidableEq

/-- Record `struct sc4_list_gpios_acpi_handler_info`; `ao` is the string of the
object it points to. -/
structure sc4_list_gpios_acpi_handler_info where
  ao : List Char
  dir : gpio_direction
deriving DecidableEq

/-- Record `struct gpio_attribute`: the attribute's name (`none` for NULL), its mode,
whether `show` is set, and the GPIO number. -/
structure gpio_attribute where
  name : Option (List Char)
  mode : Nat
  show_set : Bool
  num : Int
deriving DecidableEq

/-- Record `struct sc4_list_gpios_data`: the two arrays by index (`gpio_attr_addrs[i]`
holds the index of the attribute it points to, `none` for NULL), whether they are
allocated, the count and the name of the attribute group. -/
structure sc4_list_gpios_data where
  gpio_attrs : Nat → gpio_attribute
  gpio_attr_addrs : Nat → Option Nat
  gpios_count : Nat
  attr_group_name : Option String

/-- The record as `devm_kzalloc` leaves it. -/
def zero_data : sc4_list_gpios_data :=
  { gpio_attrs := fun _ => { name := none, mode := 0, show_set := false, num := 0 },
    gpio_attr_addrs := fun _ => none,
    gpios_count := 0,
    attr_group_name := none }

/-- A call of the driver into the kernel, with the arguments of interest. -/
inductive Call where
  | devm_kzalloc (size : Nat)
  | acpi_node_get_property_reference (propname : List Char)
  | acpi_walk_resources
  | gpiod_get (con_id : List Char)
  | gpiod_put
  | sysfs_create_group (entries : List (Option (List Char)))
  | devm_add_action_or_reset
  | sysfs_remove_group
deriving DecidableEq

/-- Outcomes of the external calls of one probe, and the sizes of the types that
the probe allocates. -/
structure Env where
  /-- does the `n`-th `devm_kzalloc` call of the probe (counted from 0) return memory -/
  devm_kzalloc : Nat → Bool
  /-- result of `acpi_node_get_property_reference` for a property name: the return
  value and `args.args[0]` -/
  acpi_node_get_property_reference : List Char → Int × Int
  /-- result of `gpiod_get` for a name: the error code of the error pointer, or the
  number that `desc_to_gpio` yields for the descriptor -/
  gpiod_get : List Char → Except Int Int
  /-- result of `sysfs_create_group` -/
  sysfs_create_group : Int
  /-- result of the `devm_add_action` inside `devm_add_action_or_reset` -/
  devm_add_action : Int
  /-- indeterminate initial content of the field `dir` of the local `aginfo` -/
  stack_dir : gpio_direction
  /-- value of `sizeof(struct sc4_list_gpios_data)` -/
  sizeof_data : Nat
  /-- value of `sizeof(struct gpio_attribute)` -/
  sizeof_gpio_attribute : Nat
  /-- value of `sizeof(struct attribute *)` -/
  sizeof_attribute_ptr : Nat

/-- State threaded through the probe: the private data, the calls made so far and
the number of `devm_kzalloc` calls among them. -/
structure State where
  priv : sc4_list_gpios_data
  calls : List Call
  allocs : Nat

/-- Append a call to the trace. -/
def State.call (st : State) (c : Call) : State :=
  { st with calls := st.calls ++ [c] }

/-- Kernel function `devm_kzalloc`: whether memory is returned, the call recorded. -/
def devm_kzalloc (env : Env) (size : Nat) (st : State) : Bool × State :=
  (env.devm_kzalloc st.allocs,
    { st with calls := st.calls ++ [.devm_kzalloc size], allocs := st.allocs + 1 })

/-- C function `strstr`: the offset of the first occurrence of `needle` in
`haystack`, `none` for NULL. -/
def strstr : List Char → List Char → Option Nat
  | [], needle => if needle = [] then some 0 else none
  | c :: rest, needle =>
    if (c :: rest).take needle.length = needle then some 0
    else (strstr rest needle).map (· + 1)

/-- Function `sc4_list_gpios_add_gpio` (source lines 84-136). The buffer `name` is
zeroed and one byte longer than `gpio_name`, so after `strncpy` it holds the first
`len` characters of `gpio_name`; the attribute's name points into that buffer. -/
def sc4_list_gpios_add_gpio (env : Env) (st : State) (gpio_name : List Char)
    (gpio_name_len : Nat) (dir : gpio_direction) : Int × State :=
  match devm_kzalloc env (gpio_name_len + 1) st with
  | (false, st) => (-ENOMEM, st)
  | (true, st) =>
    match strstr gpio_name "-gpio".toList with
    | none => (-EINVAL, st)
    | some len =>
      let name := gpio_name.take len
      let i := st.priv.gpios_count
      let st := { st with priv := { st.priv with
        gpio_attrs := Function.update st.priv.gpio_attrs i
          { st.priv.gpio_attrs i with name := some name, mode := 0o444, show_set := true },
        gpio_attr_addrs := Function.update st.priv.gpio_attr_addrs i (some i) } }
      let st := st.call (.gpiod_get name)
      match env.gpiod_get name with
      | .error err => (err, st)
      | .ok num =>
        let st := { st with priv := { st.priv with
          gpio_attrs := Function.update st.priv.gpio_attrs i
            { st.priv.gpio_attrs i with num := num } } }
        let st := st.call .gpiod_put
        let name :=
          if dir ≠ GPIO_DIR_ANY ∧ name.take 4 = "GPIO".toList then
            name.take 2 ++ [if dir = GPIO_DIR_IN then 'I' else 'O'] ++ name.drop 4
          else name
        let st := { st with priv := { st.priv with
          gpio_attrs := Function.update st.priv.gpio_attrs i
            { st.priv.gpio_attrs i with name := some name } } }
        let st := { st with priv := { st.priv with gpios_count := st.priv.gpios_count + 1 } }
        (0, st)

/-- Function `sc4_list_gpios_add_acpi_gpios` (source lines 138-144). -/
def sc4_list_gpios_add_acpi_gpios (env : Env) (st : State)
    (ahinfo : sc4_list_gpios_acpi_handler_info) : Int × State :=
  sc4_list_gpios_add_gpio env st ahinfo.ao ahinfo.ao.length ahinfo.dir

/-- Function `sc4_list_gpios_gpio_restriction_lookup` (source lines 146-170): the
status it returns and the record behind `data` after the call. -/
def sc4_list_gpios_gpio_restriction_lookup (ares : acpi_resource)
    (aginfo : sc4_list_gpios_acpi_gpio_info) : Nat × sc4_list_gpios_acpi_gpio_info :=
  if ares.type ≠ ACPI_RESOURCE_TYPE_GPIO then (1, aginfo)
  else
    let hit := decide (aginfo.num = aginfo.idx)
    let aginfo := { aginfo with num := aginfo.num + 1 }
    let aginfo :=
      if hit then
        if ares.io_restriction = ACPI_IO_RESTRICT_INPUT then { aginfo with dir := GPIO_DIR_IN }
        else if ares.io_restriction = ACPI_IO_RESTRICT_OUTPUT then
          { aginfo with dir := GPIO_DIR_OUT }
        else { aginfo with dir := GPIO_DIR_ANY }
      else aginfo
    (AE_OK, aginfo)

/-- The loop of `acpi_walk_resources` over the resource list: it stops at the
first status other than `AE_OK`, and `AE_CTRL_TERMINATE` ends it with `AE_OK`. -/
def walk_resource_buffer {α : Type} (user_function : acpi_resource → α → Nat × α) :
    List acpi_resource → α → Nat × α
  | [], context => (AE_OK, context)
  | r :: rest, context =>
    match user_function r context with
    | (status, context) =>
      if status ≠ AE_OK then
        (if status = AE_CTRL_TERMINATE then AE_OK else status, context)
      else walk_resource_buffer user_function rest context

/-- ACPICA function `acpi_walk_resources` for the method `_CRS` of `adev`. -/
def acpi_walk_resources {α : Type} (adev : acpi_device)
    (user_function : acpi_resource → α → Nat × α) (context : α) : Nat × α :=
  if adev.crs_status ≠ AE_OK then (adev.crs_status, context)
  else walk_resource_buffer user_function adev.resources context

/-- Function `sc4_list_gpios_get_gpio_dir` (source lines 172-187); `dir0` is the
indeterminate initial content of `aginfo.dir`. -/
def sc4_list_gpios_get_gpio_dir (adev : acpi_device) (idx : Int) (dir0 : gpio_direction) :
    gpio_direction :=
  let aginfo : sc4_list_gpios_acpi_gpio_info :=
    { num := 0, idx := idx, dir := dir0, found := false }
  match acpi_walk_resources adev sc4_list_gpios_gpio_restriction_lookup aginfo with
  | (status, aginfo) =>
    if status = AE_OK ∧ aginfo.found = true then aginfo.dir else GPIO_DIR_ANY

/-- Function `sc4_list_gpios_count_gpios` (source lines 189-194). -/
def sc4_list_gpios_count_gpios (_env : Env) (st : State)
    (_data : sc4_list_gpios_acpi_handler_info) : Int × State :=
  (0, { st with priv := { st.priv with gpios_count := st.priv.gpios_count + 1 } })

/-- Function `sc4_list_gpios_handle_gpio` (source lines 196-219). -/
def sc4_list_gpios_handle_gpio (env : Env) (st : State) (adev : acpi_device)
    (ao : acpi_object)
    (func : Env → State → sc4_list_gpios_acpi_handler_info → Int × State) : Int × State :=
  match ao with
  | .string pointer =>
    if strstr pointer "-gpio".toList = none then (0, st)
    else
      let st := st.call (.acpi_node_get_property_reference pointer)
      match env.acpi_node_get_property_reference pointer with
      | (err, args0) =>
        if err ≠ 0 then (err, st)
        else
          let st := st.call .acpi_walk_resources
          let ahinfo : sc4_list_gpios_acpi_handler_info :=
            { ao := pointer, dir := sc4_list_gpios_get_gpio_dir adev args0 env.stack_dir }
          func env st ahinfo
  | _ => (0, st)

/-- The innermost loop of `sc4_list_gpios_enumerate_acpi_gpios` (source lines
247-252); the first component is `some err` when the function returns from it. -/
def enumerate_k (env : Env) (adev : acpi_device)
    (func : Env → State → sc4_list_gpios_acpi_handler_info → Int × State) :
    List acpi_object → State → Option Int × State
  | [], st => (none, st)
  | ao :: rest, st =>
    match sc4_list_gpios_handle_gpio env st adev ao func with
    | (err, st) => if err < 0 then (some err, st) else enumerate_k env adev func rest st

/-- The middle loop of `sc4_list_gpios_enumerate_acpi_gpios` (source lines 241-253). -/
def enumerate_j (env : Env) (adev : acpi_device)
    (func : Env → State → sc4_list_gpios_acpi_handler_info → Int × State) :
    List acpi_object → State → Option Int × State
  | [], st => (none, st)
  | .package elements :: rest, st =>
    match enumerate_k env adev func elements st with
    | (some err, st) => (some err, st)
    | (none, st) => enumerate_j env adev func rest st
  | _ :: rest, st => enumerate_j env adev func rest st

/-- The outer loop of `sc4_list_gpios_enumerate_acpi_gpios` (source lines 235-254). -/
def enumerate_i (env : Env) (adev : acpi_device)
    (func : Env → State → sc4_list_gpios_acpi_handler_info → Int × State) :
    List acpi_object → State → Option Int × State
  | [], st => (none, st)
  | .package elements :: rest, st =>
    match enumerate_j env adev func elements st with
    | (some err, st) => (some err, st)
    | (none, st) => enumerate_i env adev func rest st
  | _ :: rest, st => enumerate_i env adev func rest st

/-- Function `sc4_list_gpios_enumerate_acpi_gpios` (source lines 221-257); `adev` is
`none` when the device has no ACPI companion. -/
def sc4_list_gpios_enumerate_acpi_gpios (env : Env) (adev : Option acpi_device) (st : State)
    (func : Env → State → sc4_list_gpios_acpi_handler_info → Int × State) : Int × State :=
  match adev with
  | none => (0, st)
  | some adev =>
    match adev.data_pointer with
    | none => (0, st)
    | some elements =>
      match enumerate_i env adev func elements st with
      | (some err, st) => (err, st)
      | (none, st) => (0, st)

/-- Function `sc4_list_gpios_disable` (source lines 261-266). -/
def sc4_list_gpios_disable (st : State) : State :=
  st.call .sysfs_remove_group

/-- The byte size that the probe requests for `gpio_attrs` (source line 285). -/
def gpio_attrs_size (env : Env) (gpios_count : Nat) : Nat :=
  env.sizeof_gpio_attribute * gpios_count

/-- The byte size that the probe requests for `gpio_attr_addrs` (source lines
289-290): `sizeof(*priv->gpio_attr_addrs) * priv->gpios_count + 1`. -/
def gpio_attr_addrs_size (env : Env) (gpios_count : Nat) : Nat :=
  env.sizeof_attribute_ptr * gpios_count + 1

/-- Function `sc4_list_gpios_probe` (source lines 268-315): the return value and the
state it leaves. The log messages are left out. -/
def sc4_list_gpios_probe (env : Env) (adev : Option acpi_device) : Int × State :=
  let st : State := { priv := zero_data, calls := [], allocs := 0 }
  match devm_kzalloc env env.sizeof_data st with
  | (false, st) => (-ENOMEM, st)
  | (true, st) =>
    match sc4_list_gpios_enumerate_acpi_gpios env adev st sc4_list_gpios_count_gpios with
    | (err, st) =>
      if err < 0 then (err, st)
      else
        match devm_kzalloc env (gpio_attrs_size env st.priv.gpios_count) st with
        | (false, st) => (-ENOMEM, st)
        | (true, st) =>
          match devm_kzalloc env (gpio_attr_addrs_size env st.priv.gpios_count) st with
          | (false, st) => (-ENOMEM, st)
          | (true, st) =>
            let st := { st with priv := { st.priv with gpios_count := 0 } }
            match sc4_list_gpios_enumerate_acpi_gpios env adev st
                sc4_list_gpios_add_acpi_gpios with
            | (err, st) =>
              if err < 0 then (err, st)
              else
                let st := { st with priv := { st.priv with attr_group_name := some "gpios" } }
                let st := st.call (.sysfs_create_group
                  ((List.range st.priv.gpios_count).map
                    (fun i => (st.priv.gpio_attrs i).name)))
                let err := env.sysfs_create_group
                if err ≠ 0 then (err, st)
                else
                  let st := st.call .devm_add_action_or_reset
                  let err := env.devm_add_action
                  if err ≠ 0 then (err, sc4_list_gpios_disable st)
                  else (0, st)

/-! ## Vocabulary and examples for the GPIO listing driver -/

/-- The size of an array of `n` attribute pointers. -/
def attr_ptr_array_size (env : Env) (n : Nat) : Nat :=
  n * env.sizeof_attribute_ptr

/-- The sizes of a 64-bit kernel; every external call succeeds, the property
reference yields resource index 0 and `gpiod_get` yields GPIO number 300. -/
def env_ok : Env :=
  { devm_kzalloc := fun _ => true,
    acpi_node_get_property_reference := fun _ => (0, 0),
    gpiod_get := fun _ => .ok 300,
    sysfs_create_group := 0,
    devm_add_action := 0,
    stack_dir := GPIO_DIR_ANY,
    sizeof_data := 80,
    sizeof_gpio_attribute := 40,
    sizeof_attribute_ptr := 8 }

/-- A companion device whose `_CRS` lists one GPIO resource restricted to input and
whose `_DSD` data names the two properties "GPIO17-gpios" and "reset-gpios". -/
def adev_two_gpios : acpi_device :=
  { crs_status := AE_OK,
    resources := [{ type := ACPI_RESOURCE_TYPE_GPIO, io_restriction := ACPI_IO_RESTRICT_INPUT }],
    data_pointer := some [.other 3,
      .package [.package [.string "GPIO17-gpios".toList, .package [.other 20, .other 1]],
                .package [.string "reset-gpios".toList, .package [.other 20, .other 1]],
                .package [.string "vendor".toList, .other 1]]] }

/-- The size argument of a `devm_kzalloc` call. -/
def Call.allocSize : Call → Option Nat
  | .devm_kzalloc size => some size
  | _ => none

/-- The probe state before anything is allocated. -/
def state_zero : State := { priv := zero_data, calls := [], allocs := 0 }

end Sc4ListGpios
/-! # Theorems -/

namespace AcpiGpioPpsClient

open LinuxPps

/-! ## Bit-level facts about the mask -/

theorem land_one_shiftLeft_ne_zero (m : Int) (i : Nat) :
    Int.land m ((1 : Int) <<< (i : Int)) ≠ 0 ↔ m.testBit i = true := by
  rw [Int.one_shiftLeft]
  cases m with
  | ofNat n =>
    have h : Int.land (Int.ofNat n) ((2 ^ i : Nat) : Int) = ((n &&& 2 ^ i : Nat) : Int) := rfl
    rw [h]
    simp only [Int.testBit]
    constructor
    · intro hne
      have hne2 : n &&& 2 ^ i ≠ 0 := fun h0 => hne (by rw [h0]; rfl)
      obtain ⟨j, hj⟩ := Nat.ne_zero_implies_bit_true hne2
      rw [Nat.testBit_and, Nat.testBit_two_pow] at hj
      simp only [Bool.and_eq_true, decide_eq_true_eq] at hj
      rw [hj.2]; exact hj.1
    · intro hb hz
      have h0 : n &&& 2 ^ i = 0 := by exact_mod_cast hz
      have := Nat.testBit_and n (2 ^ i) i
      rw [h0, hb, Nat.testBit_two_pow_self] at this
      simp at this
  | negSucc n =>
    have h : Int.land (Int.negSucc n) ((2 ^ i : Nat) : Int) = ((Nat.ldiff (2 ^ i) n : Nat) : Int) := rfl
    rw [h]
    simp only [Int.testBit]
    constructor
    · intro hne
      have hne2 : Nat.ldiff (2 ^ i) n ≠ 0 := fun h0 => hne (by rw [h0]; rfl)
      obtain ⟨j, hj⟩ := Nat.ne_zero_implies_bit_true hne2
      rw [Nat.testBit_ldiff, Nat.testBit_two_pow] at hj
      simp only [Bool.and_eq_true, decide_eq_true_eq] at hj
      rw [hj.1]; exact hj.2
    · intro hb hz
      have h0 : Nat.ldiff (2 ^ i) n = 0 := by exact_mod_cast hz
      have := Nat.testBit_ldiff (2 ^ i) n i
      rw [h0, hb, Nat.testBit_two_pow_self] at this
      simp at this

theorem line_enabled_eq_testBit (m : Int) (i : Nat) : line_enabled m i = m.testBit i := by
  unfold line_enabled
  by_cases h : m.testBit i = true
  · rw [h]; exact decide_eq_true ((land_one_shiftLeft_ne_zero m i).2 h)
  · have h2 : ¬ Int.land m ((1 : Int) <<< (i : Int)) ≠ 0 := fun hh =>
      h ((land_one_shiftLeft_ne_zero m i).1 hh)
    rw [Bool.not_eq_true] at h
    rw [h]; exact decide_eq_false h2

theorem popcountAux_eq_countP (w n : Nat) :
    popcountAux w n = (List.range w).countP (fun i => n.testBit i) := by
  induction w generalizing n with
  | zero => simp [popcountAux]
  | succ w ih =>
    rw [popcountAux, List.range_succ_eq_map, List.countP_cons, List.countP_map]
    have hfun : ((fun i => n.testBit i) ∘ Nat.succ) = (fun i => (n / 2).testBit i) := by
      funext i; simp [Nat.testBit_succ]
    rw [hfun, ← ih (n / 2)]
    by_cases h0 : n = 0
    · subst h0
      simp [ih 0]
    · rw [if_neg h0, Nat.testBit_zero]
      rcases Nat.mod_two_eq_zero_or_one n with h | h
      · simp [h]
      · simp [h, Nat.add_comm]

theorem countP_testBit_range (n f g : Nat) (hf : n < 2 ^ f) (hfg : f ≤ g) :
    (List.range g).countP (fun i => n.testBit i) = (List.range f).countP (fun i => n.testBit i) := by
  induction g with
  | zero =>
    have : f = 0 := by omega
    subst this; rfl
  | succ g ih =>
    by_cases h : f = g + 1
    · rw [h]
    · have hle : f ≤ g := by omega
      rw [List.range_succ, List.countP_append, ih hle]
      have hlt : n < 2 ^ g := lt_of_lt_of_le hf (Nat.pow_le_pow_right (by decide) hle)
      simp [Nat.testBit_lt_two_pow hlt]

theorem popcount_eq_countP (n w : Nat) (h : n < 2 ^ w) :
    popcount n = (List.range w).countP (fun i => n.testBit i) := by
  unfold popcount
  rw [popcountAux_eq_countP]
  rcases Nat.le_total n w with hle | hle
  · exact (countP_testBit_range n n w (Nat.lt_two_pow n) hle).symm
  · exact countP_testBit_range n w n h hle

theorem popcount_mask (m : Int) :
    popcount (Int.land m 0xFF).toNat = (List.range MAX_GPIOS).countP (line_enabled m) := by
  obtain ⟨k, hk⟩ : ∃ k : Nat, Int.land m 0xFF = (k : Int) := by
    cases m with
    | ofNat n => exact ⟨n &&& 0xFF, rfl⟩
    | negSucc n => exact ⟨Nat.ldiff 0xFF n, rfl⟩
  have hbit : ∀ i, k.testBit i = (m.testBit i && decide (i < 8)) := by
    intro i
    have h1 := Int.testBit_land m 0xFF i
    rw [hk] at h1
    have h2 : Int.testBit (0xFF : Int) i = Nat.testBit (2 ^ 8 - 1) i := rfl
    rw [h2, Nat.testBit_two_pow_sub_one] at h1
    exact h1
  have hlt : k < 2 ^ 8 := by
    apply Nat.lt_pow_two_of_testBit
    intro i hi
    rw [hbit]
    simp; omega
  rw [hk, Int.toNat_natCast, popcount_eq_countP k 8 hlt]
  apply List.countP_congr
  intro i hi
  have hi8 : i < 8 := List.mem_range.1 hi
  rw [hbit, line_enabled_eq_testBit]
  simp [hi8]

end AcpiGpioPpsClient

namespace AcpiGpioPpsClient

open LinuxPps

/-! ## The clean-up loop -/

theorem disable_eq_unregister_loop (st : ProbeState) :
    acpi_gpio_pps_client_disable st = unregister_loop (List.range MAX_GPIOS) st := rfl

theorem probe_fail_eq (err : Int) (st : ProbeState) :
    probe_fail err st =
      { ret := err, priv := some (unregister_loop (List.range MAX_GPIOS) st).priv,
        kernel := (unregister_loop (List.range MAX_GPIOS) st).kernel,
        calls := (unregister_loop (List.range MAX_GPIOS) st).calls,
        action_added := (unregister_loop (List.range MAX_GPIOS) st).action_added,
        fault := (unregister_loop (List.range MAX_GPIOS) st).fault } := rfl

theorem pps_unregister_source_priv (p : Ptr) (st : ProbeState) :
    (pps_unregister_source p st).priv = st.priv := by
  cases p with
  | null => rfl
  | err e => rfl
  | obj id =>
    unfold pps_unregister_source
    simp only
    split <;> rfl

theorem unregister_loop_spec (is : List Nat) (st : ProbeState) :
    (unregister_loop is st).priv = st.priv ∧
    (unregister_loop is st).action_added = st.action_added ∧
    (unregister_loop is st).kernel.next_id = st.kernel.next_id ∧
    (unregister_loop is st).kernel.sources = erase_all st.kernel.sources (live st.priv is) ∧
    (unregister_loop is st).calls = st.calls ++ (live st.priv is).map Call.pps_unregister_source := by
  induction is generalizing st with
  | nil => simp [unregister_loop, live, erase_all]
  | cons i rest ih =>
    have hstep : unregister_loop (i :: rest) st =
        unregister_loop rest (if (st.priv.pps_client i).pps.nonNull then
          pps_unregister_source (st.priv.pps_client i).pps st else st) := rfl
    rw [hstep]
    cases hp : (st.priv.pps_client i).pps with
    | null =>
      have := ih st
      simpa [hp, Ptr.nonNull, live] using this
    | obj id =>
      have := ih (pps_unregister_source (.obj id) st)
      simp only [hp, Ptr.nonNull, if_true]
      by_cases hmem : id ∈ st.kernel.sources
      · simp only [pps_unregister_source, ProbeState.call, hmem, if_true] at this ⊢
        simp [live, hp, Ptr.nonNull, erase_all] at this ⊢
        exact this
      · simp only [pps_unregister_source, ProbeState.call, hmem, if_false] at this ⊢
        simp [live, hp, Ptr.nonNull, erase_all, List.erase_of_not_mem hmem] at this ⊢
        exact this
    | err e =>
      have := ih (pps_unregister_source (.err e) st)
      simp only [hp, Ptr.nonNull, if_true]
      simp only [pps_unregister_source, ProbeState.call] at this ⊢
      simp [live, hp, Ptr.nonNull, erase_all] at this ⊢
      exact this

/-- The clean-up loop sets `fault` exactly when one of its `pps_unregister_source`
calls is undefined. -/
theorem unregister_loop_fault (is : List Nat) (st : ProbeState) :
    (unregister_loop is st).fault =
      (st.fault || !(unregister_ok st.kernel.sources (live st.priv is))) := by
  induction is generalizing st with
  | nil => simp [unregister_loop, live, unregister_ok]
  | cons i rest ih =>
    have hstep : unregister_loop (i :: rest) st =
        unregister_loop rest (if (st.priv.pps_client i).pps.nonNull then
          pps_unregister_source (st.priv.pps_client i).pps st else st) := rfl
    rw [hstep]
    cases hp : (st.priv.pps_client i).pps with
    | null =>
      have := ih st
      simpa [hp, Ptr.nonNull, live] using this
    | obj id =>
      have := ih (pps_unregister_source (.obj id) st)
      simp only [hp, Ptr.nonNull, if_true]
      by_cases hmem : id ∈ st.kernel.sources
      · simp only [pps_unregister_source, ProbeState.call, hmem, if_true] at this ⊢
        simp [live, hp, Ptr.nonNull, unregister_ok, hmem] at this ⊢
        exact this
      · simp only [pps_unregister_source, ProbeState.call, hmem, if_false] at this ⊢
        simp [live, hp, Ptr.nonNull, unregister_ok, hmem] at this ⊢
        exact this
    | err e =>
      have := ih (pps_unregister_source (.err e) st)
      simp only [hp, Ptr.nonNull, if_true]
      simp only [pps_unregister_source, ProbeState.call] at this ⊢
      simp [live, hp, Ptr.nonNull, unregister_ok] at this ⊢
      exact this

end AcpiGpioPpsClient

namespace AcpiGpioPpsClient

open LinuxPps

/-! ## One round of the acquisition loop -/

theorem probe_line_disabled (env : Env) (m : Int) (i : Nat) (st : ProbeState)
    (h : line_enabled m i = false) : probe_line env m i st = (none, st) := by
  unfold line_enabled at h
  simp only [decide_eq_false_iff_not] at h
  unfold probe_line
  simp only [if_neg h]

theorem probe_line_spec (env : Env) (m : Int) (i : Nat) (st : ProbeState)
    (h : line_enabled m i = true) :
    (∀ j, j ≠ i → (probe_line env m i st).2.priv.pps_client j = st.priv.pps_client j) ∧
    (probe_line env m i st).2.action_added = st.action_added ∧
    ((∃ e, (probe_line env m i st).1 = some e ∧ e ≠ 0 ∧
        (probe_line env m i st).2.kernel = st.kernel ∧
        (((probe_line env m i st).2.priv.pps_client i).pps = (st.priv.pps_client i).pps ∨
          ∃ e2, ((probe_line env m i st).2.priv.pps_client i).pps = .err e2)) ∨
     (((probe_line env m i st).1 = none ∨ ∃ e, (probe_line env m i st).1 = some e ∧ e ≠ 0) ∧
        (probe_line env m i st).2.kernel =
          { sources := st.kernel.sources ++ [st.kernel.next_id],
            next_id := st.kernel.next_id + 1 } ∧
        ((probe_line env m i st).2.priv.pps_client i).pps = .obj st.kernel.next_id)) := by
  unfold line_enabled at h
  simp only [decide_eq_true_eq] at h
  unfold probe_line
  simp only [if_pos h]
  cases hg : env.devm_gpiod_get i with
  | error e =>
    simp [IS_ERR, ProbeState.setClient, ProbeState.call, Function.update]
    intro j hj
    simp [hj]
  | ok d =>
    simp only [IS_ERR]
    by_cases hirq : env.gpiod_to_irq i < 0
    · simp [hirq, ProbeState.setClient, ProbeState.call, Function.update]
      refine ⟨?_, ?_⟩
      · intro j hj
        simp [hj]
      · omega
    · cases hr : env.pps_register_source i with
      | some e =>
        simp [hirq, hr, pps_register_source, IS_ERR, PTR_ERR, ProbeState.setClient,
          ProbeState.call, Function.update]
        refine ⟨?_, ?_⟩
        · intro j hj
          simp [hj]
        · have := e.property.2
          omega
      | none =>
        by_cases hq : env.devm_request_irq i = 0
        · simp [hirq, hr, hq, pps_register_source, IS_ERR, PTR_ERR, ProbeState.setClient,
            ProbeState.call, Function.update]
          intro j hj
          simp [hj]
        · simp [hirq, hr, hq, pps_register_source, IS_ERR, PTR_ERR, ProbeState.setClient,
            ProbeState.call, Function.update]
          intro j hj
          simp [hj]

end AcpiGpioPpsClient

namespace AcpiGpioPpsClient

open LinuxPps

/-! ## The acquisition loop -/

theorem live_cons (priv : acpi_gpio_pps_client_data) (i : Nat) (rest : List Nat) :
    live priv (i :: rest) =
      (if (priv.pps_client i).pps.nonNull then [(priv.pps_client i).pps] else []) ++
        live priv rest := by
  unfold live
  by_cases h : (priv.pps_client i).pps.nonNull = true <;> simp [h]

theorem live_congr (p q : acpi_gpio_pps_client_data) (is : List Nat)
    (h : ∀ j ∈ is, p.pps_client j = q.pps_client j) : live p is = live q is := by
  unfold live
  congr 1
  exact List.map_congr_left (fun j hj => by rw [h j hj])

theorem live_null (p : acpi_gpio_pps_client_data) (is : List Nat)
    (h : ∀ j ∈ is, (p.pps_client j).pps = .null) : live p is = [] := by
  induction is with
  | nil => rfl
  | cons i rest ih =>
    rw [live_cons, h i (List.mem_cons_self _ _), ih (fun j hj => h j (List.mem_cons_of_mem _ hj))]
    rfl

theorem probe_lines_cons (env : Env) (m : Int) (i : Nat) (rest : List Nat) (st : ProbeState) :
    probe_lines env m (i :: rest) st =
      match probe_line env m i st with
      | (some err, st) => (some err, st)
      | (none, st) => probe_lines env m rest st := rfl

theorem probe_lines_spec (env : Env) (m : Int) (is : List Nat) (st : ProbeState)
    (hnd : is.Nodup) (hnull : ∀ i ∈ is, (st.priv.pps_client i).pps = .null) :
    ∃ (n : Nat) (tail : List Ptr),
      (probe_lines env m is st).2.kernel.sources =
        st.kernel.sources ++ List.range' st.kernel.next_id n ∧
      (probe_lines env m is st).2.kernel.next_id = st.kernel.next_id + n ∧
      live (probe_lines env m is st).2.priv is =
        (List.range' st.kernel.next_id n).map Ptr.obj ++ tail ∧
      (∀ p ∈ tail, ∃ e, p = Ptr.err e) ∧
      (∀ j, j ∉ is → (probe_lines env m is st).2.priv.pps_client j = st.priv.pps_client j) ∧
      (probe_lines env m is st).2.action_added = st.action_added ∧
      ((probe_lines env m is st).1 = none → tail = [] ∧ n = is.countP (line_enabled m)) ∧
      (∀ e, (probe_lines env m is st).1 = some e → e ≠ 0) := by
  induction is generalizing st with
  | nil =>
    refine ⟨0, [], ?_⟩
    simp [probe_lines, live]
  | cons i rest ih =>
    have hi : i ∉ rest := (List.nodup_cons.1 hnd).1
    have hrest : rest.Nodup := (List.nodup_cons.1 hnd).2
    have hnull_i : (st.priv.pps_client i).pps = .null := hnull i (List.mem_cons_self _ _)
    have hnull_rest : ∀ j ∈ rest, (st.priv.pps_client j).pps = .null :=
      fun j hj => hnull j (List.mem_cons_of_mem _ hj)
    rw [probe_lines_cons]
    cases hen : line_enabled m i with
    | false =>
      rw [probe_line_disabled env m i st hen]
      obtain ⟨n, tail, h1, h2, h3, h4, h5, h6, h7, h8⟩ := ih st hrest hnull_rest
      refine ⟨n, tail, h1, h2, ?_, h4, ?_, h6, ?_, h8⟩
      · simp only
        rw [live_cons, h5 i hi, hnull_i]
        simpa [Ptr.nonNull] using h3
      · intro j hj
        exact h5 j (fun hmem => hj (List.mem_cons_of_mem _ hmem))
      · intro hnone
        obtain ⟨ht, hn⟩ := h7 hnone
        refine ⟨ht, ?_⟩
        rw [List.countP_cons, hen, hn]
        simp
    | true =>
      obtain ⟨hothers, hact, hcases⟩ := probe_line_spec env m i st hen
      have hrest_same : ∀ j ∈ rest,
          (probe_line env m i st).2.priv.pps_client j = st.priv.pps_client j :=
        fun j hj => hothers j (fun hji => hi (hji ▸ hj))
      rcases hcases with ⟨e, hr, he, hk, hpps⟩ | ⟨hr, hk, hpps⟩
      · -- failure before a source was registered
        have hres : (match probe_line env m i st with
            | (some err, st) => (some err, st)
            | (none, st) => probe_lines env m rest st) =
            (some e, (probe_line env m i st).2) := by
          rcases hpl : probe_line env m i st with ⟨r, s⟩
          rw [hpl] at hr
          simp only at hr
          subst hr
          rfl
        rw [hres]
        have hlive_rest : live (probe_line env m i st).2.priv rest = [] :=
          live_null _ _ (fun j hj => by rw [hrest_same j hj]; exact hnull_rest j hj)
        rcases hpps with hsame | ⟨e2, herr⟩
        · refine ⟨0, [], ?_⟩
          simp only
          rw [live_cons, hsame, hnull_i, hlive_rest, hk, hact]
          refine ⟨by simp, by simp, by simp [Ptr.nonNull], by simp, ?_, rfl, by simp, ?_⟩
          · intro j hj
            exact hothers j (fun hji => hj (hji ▸ List.mem_cons_self _ _))
          · intro e3 h3
            cases h3
            exact he
        · refine ⟨0, [Ptr.err e2], ?_⟩
          simp only
          rw [live_cons, herr, hlive_rest, hk, hact]
          refine ⟨by simp, by simp, by simp [Ptr.nonNull], ?_, ?_, rfl, by simp, ?_⟩
          · intro p hp
            exact ⟨e2, by simpa using hp⟩
          · intro j hj
            exact hothers j (fun hji => hj (hji ▸ List.mem_cons_self _ _))
          · intro e3 h3
            cases h3
            exact he
      · rcases hr with hnone | ⟨e, hsome, he⟩
        · -- the round succeeded: continue with the remaining indices
          have hres : (match probe_line env m i st with
              | (some err, st) => (some err, st)
              | (none, st) => probe_lines env m rest st) =
              probe_lines env m rest (probe_line env m i st).2 := by
            rcases hpl : probe_line env m i st with ⟨r, s⟩
            rw [hpl] at hnone
            simp only at hnone
            subst hnone
            rfl
          rw [hres]
          obtain ⟨n, tail, h1, h2, h3, h4, h5, h6, h7, h8⟩ :=
            ih (probe_line env m i st).2 hrest
              (fun j hj => by rw [hrest_same j hj]; exact hnull_rest j hj)
          refine ⟨n + 1, tail, ?_, ?_, ?_, h4, ?_, ?_, ?_, h8⟩
          · rw [h1, hk]
            simp [List.range'_succ]
          · rw [h2, hk]
            simp only
            omega
          · rw [live_cons, h5 i hi, hpps, h3, hk]
            simp [Ptr.nonNull, List.range'_succ]
          · intro j hj
            rw [h5 j (fun hmem => hj (List.mem_cons_of_mem _ hmem))]
            exact hothers j (fun hji => hj (hji ▸ List.mem_cons_self _ _))
          · rw [h6, hact]
          · intro hn
            obtain ⟨ht, hcount⟩ := h7 hn
            refine ⟨ht, ?_⟩
            rw [List.countP_cons, hen, hcount]
            simp
        · -- the source was registered, the interrupt could not be installed
          have hres : (match probe_line env m i st with
              | (some err, st) => (some err, st)
              | (none, st) => probe_lines env m rest st) =
              (some e, (probe_line env m i st).2) := by
            rcases hpl : probe_line env m i st with ⟨r, s⟩
            rw [hpl] at hsome
            simp only at hsome
            subst hsome
            rfl
          rw [hres]
          have hlive_rest : live (probe_line env m i st).2.priv rest = [] :=
            live_null _ _ (fun j hj => by rw [hrest_same j hj]; exact hnull_rest j hj)
          refine ⟨1, [], ?_⟩
          simp only
          rw [live_cons, hpps, hlive_rest, hk, hact]
          refine ⟨by simp [List.range'], by simp, by simp [Ptr.nonNull, List.range'], by simp,
            ?_, rfl, by simp, ?_⟩
          · intro j hj
            exact hothers j (fun hji => hj (hji ▸ List.mem_cons_self _ _))
          · intro e3 h3
            cases h3
            exact he

end AcpiGpioPpsClient

namespace AcpiGpioPpsClient

open LinuxPps

/-! ## Effect of the clean-up on the registry -/

theorem erase_all_append (A : List Nat) (p q : List Ptr) :
    erase_all A (p ++ q) = erase_all (erase_all A p) q := by
  simp [erase_all, List.foldl_append]

theorem erase_all_errs (A : List Nat) (tail : List Ptr) (h : ∀ p ∈ tail, ∃ e, p = Ptr.err e) :
    erase_all A tail = A := by
  induction tail generalizing A with
  | nil => rfl
  | cons p rest ih =>
    obtain ⟨e, he⟩ := h p (List.mem_cons_self _ _)
    subst he
    exact ih A (fun q hq => h q (List.mem_cons_of_mem _ hq))

theorem erase_all_fresh (A ids : List Nat) (h : ∀ id ∈ ids, id ∉ A) :
    erase_all (A ++ ids) (ids.map Ptr.obj) = A := by
  induction ids with
  | nil => simp [erase_all]
  | cons x xs ih =>
    have hx : x ∉ A := h x (List.mem_cons_self _ _)
    have hstep : erase_all (A ++ x :: xs) ((x :: xs).map Ptr.obj) =
        erase_all ((A ++ x :: xs).erase x) (xs.map Ptr.obj) := rfl
    rw [hstep, List.erase_append_right _ hx, List.erase_cons_head]
    exact ih (fun id hid => h id (List.mem_cons_of_mem _ hid))

theorem erase_all_not_mem (A ids : List Nat) (h : ∀ id ∈ ids, id ∉ A) :
    erase_all A (ids.map Ptr.obj) = A := by
  induction ids with
  | nil => rfl
  | cons x xs ih =>
    have hx : x ∉ A := h x (List.mem_cons_self _ _)
    have hstep : erase_all A ((x :: xs).map Ptr.obj) = erase_all (A.erase x) (xs.map Ptr.obj) := rfl
    rw [hstep, List.erase_of_not_mem hx]
    exact ih (fun id hid => h id (List.mem_cons_of_mem _ hid))

theorem range_fresh (k : Kernel) (hfresh : ∀ id ∈ k.sources, id < k.next_id) (n : Nat) :
    ∀ id ∈ List.range' k.next_id n, id ∉ k.sources := by
  intro id hid hmem
  have h1 := hfresh id hmem
  have h2 := (List.mem_range'_1.1 hid).1
  omega

/-- The state in which `probe` enters its acquisition loop. -/
theorem probe_unfold (env : Env) (m : Int) (k : Kernel) (h : env.devm_kzalloc = true) :
    acpi_gpio_pps_client_probe env m k =
      match probe_lines env m (List.range MAX_GPIOS)
          { priv := zero_data, kernel := k, calls := [], action_added := false } with
      | (some err, st) => probe_fail err st
      | (none, st) =>
        if env.devm_add_action ≠ 0 then
          probe_fail env.devm_add_action
            (acpi_gpio_pps_client_disable (st.call .devm_add_action_or_reset))
        else
          { ret := 0, priv := some st.priv, kernel := st.kernel,
            calls := st.calls ++ [.devm_add_action_or_reset], action_added := true,
            fault := st.fault } := by
  unfold acpi_gpio_pps_client_probe
  simp only [h, Bool.not_true, Bool.false_eq_true, if_false]
  rcases probe_lines env m (List.range MAX_GPIOS)
    { priv := zero_data, kernel := k, calls := [], action_added := false } with ⟨r, st⟩
  cases r with
  | some e => rfl
  | none =>
    simp only [devm_add_action_or_reset]
    by_cases ha : env.devm_add_action = 0
    · simp [ha, ProbeState.call]
    · simp [ha]

/-- Bookkeeping of the registry list of the model, for every outcome: `probe`
either returns 0 with exactly popcount(mask & 0xFF) identifiers added to the list,
or returns a non-zero value with the list as it was. The list is left as it is by
an undefined `pps_unregister_source` call, so for a run with `fault` set this is a
statement about the model only, not about the kernel. -/
theorem probe_registry_bookkeeping (env : Env) (m : Int) (k : Kernel)
    (hfresh : ∀ id ∈ k.sources, id < k.next_id) :
    ((acpi_gpio_pps_client_probe env m k).ret = 0 ∧
      (acpi_gpio_pps_client_probe env m k).kernel.sources.length =
        k.sources.length + popcount (Int.land m 0xFF).toNat) ∨
    ((acpi_gpio_pps_client_probe env m k).ret ≠ 0 ∧
      (acpi_gpio_pps_client_probe env m k).kernel.sources = k.sources) := by
  cases hz : env.devm_kzalloc with
  | false =>
    right
    simp [acpi_gpio_pps_client_probe, hz, ENOMEM]
  | true =>
    rw [probe_unfold env m k hz]
    obtain ⟨n, tail, h1, h2, h3, h4, h5, h6, h7, h8⟩ :=
      probe_lines_spec env m (List.range MAX_GPIOS)
        { priv := zero_data, kernel := k, calls := [], action_added := false }
        (List.nodup_range _) (fun _ _ => rfl)
    simp only at h1 h2 h3
    have hids := range_fresh k hfresh n
    rcases hpl : probe_lines env m (List.range MAX_GPIOS)
      { priv := zero_data, kernel := k, calls := [], action_added := false } with ⟨r, st⟩
    rw [hpl] at h1 h2 h3 h7 h8
    simp only at h1 h2 h3 h7 h8
    cases r with
    | some e =>
      right
      simp only [probe_fail_eq]
      refine ⟨h8 e rfl, ?_⟩
      rw [(unregister_loop_spec _ st).2.2.2.1, h1, h3, erase_all_append,
        erase_all_fresh _ _ hids, erase_all_errs _ _ h4]
    | none =>
      obtain ⟨ht, hn⟩ := h7 rfl
      subst ht
      rw [List.append_nil] at h3
      by_cases ha : env.devm_add_action = 0
      · left
        simp only [ha, ne_eq, not_true_eq_false, if_false, true_and]
        rw [h1, List.length_append, List.length_range', hn, popcount_mask]
      · right
        simp only [ne_eq, ha, not_false_eq_true, if_true, probe_fail_eq,
          disable_eq_unregister_loop, true_and]
        have hd := unregister_loop_spec (List.range MAX_GPIOS)
          (st.call .devm_add_action_or_reset)
        have hd1 : (unregister_loop (List.range MAX_GPIOS)
            (st.call .devm_add_action_or_reset)).kernel.sources = k.sources := by
          rw [hd.2.2.2.1]
          simp only [ProbeState.call]
          rw [h1, h3, erase_all_fresh _ _ hids]
        rw [(unregister_loop_spec _ _).2.2.2.1, hd.1, hd1]
        simp only [ProbeState.call]
        rw [h3, erase_all_not_mem _ _ hids]

/-! ## Runs without an undefined call -/

theorem probe_line_fault (env : Env) (m : Int) (i : Nat) (st : ProbeState) :
    (probe_line env m i st).2.fault = st.fault := by
  by_cases h : Int.land m ((1 : Int) <<< (i : Int)) ≠ 0
  · unfold probe_line
    simp only [if_pos h]
    cases hg : env.devm_gpiod_get i with
    | error e => simp [IS_ERR, ProbeState.setClient, ProbeState.call]
    | ok d =>
      simp only [IS_ERR]
      by_cases hirq : env.gpiod_to_irq i < 0
      · simp [hirq, ProbeState.setClient, ProbeState.call]
      · cases hr : env.pps_register_source i with
        | some e =>
          simp [hirq, hr, pps_register_source, IS_ERR, ProbeState.setClient, ProbeState.call]
        | none =>
          by_cases hq : env.devm_request_irq i = 0
          · simp [hirq, hr, hq, pps_register_source, IS_ERR, ProbeState.setClient,
              ProbeState.call]
          · simp [hirq, hr, hq, pps_register_source, IS_ERR, ProbeState.setClient,
              ProbeState.call]
  · unfold probe_line
    simp only [if_neg h]

theorem probe_lines_fault (env : Env) (m : Int) (is : List Nat) (st : ProbeState) :
    (probe_lines env m is st).2.fault = st.fault := by
  induction is generalizing st with
  | nil => rfl
  | cons i rest ih =>
    rw [probe_lines_cons]
    have h := probe_line_fault env m i st
    rcases hpl : probe_line env m i st with ⟨r, s⟩
    rw [hpl] at h
    cases r with
    | some e => exact h
    | none =>
      simp only
      rw [ih s]
      exact h

theorem probe_line_no_err (env : Env) (m : Int) (i : Nat) (st : ProbeState)
    (hreg : ∀ i, env.pps_register_source i = none) (j : Nat)
    (hj : ∀ e, (st.priv.pps_client j).pps ≠ Ptr.err e) :
    ∀ e, ((probe_line env m i st).2.priv.pps_client j).pps ≠ Ptr.err e := by
  by_cases hji : j = i
  · subst hji
    by_cases h : Int.land m ((1 : Int) <<< (j : Int)) ≠ 0
    · unfold probe_line
      simp only [if_pos h]
      cases hg : env.devm_gpiod_get j with
      | error e =>
        simpa [IS_ERR, ProbeState.setClient, ProbeState.call, Function.update] using hj
      | ok d =>
        simp only [IS_ERR]
        by_cases hirq : env.gpiod_to_irq j < 0
        · simpa [hirq, ProbeState.setClient, ProbeState.call, Function.update] using hj
        · by_cases hq : env.devm_request_irq j = 0
          · simp [hirq, hreg j, hq, pps_register_source, IS_ERR, ProbeState.setClient,
              ProbeState.call, Function.update]
          · simp [hirq, hreg j, hq, pps_register_source, IS_ERR, ProbeState.setClient,
              ProbeState.call, Function.update]
    · unfold probe_line
      simp only [if_neg h]
      exact hj
  · by_cases h : line_enabled m i = true
    · rw [(probe_line_spec env m i st h).1 j hji]
      exact hj
    · have hd : ¬ Int.land m ((1 : Int) <<< (i : Int)) ≠ 0 := by
        intro hc
        exact h (by unfold line_enabled; simpa using hc)
      unfold probe_line
      simp only [if_neg hd]
      exact hj

theorem probe_lines_no_err (env : Env) (m : Int) (is : List Nat) (st : ProbeState)
    (hreg : ∀ i, env.pps_register_source i = none) (j : Nat)
    (hj : ∀ e, (st.priv.pps_client j).pps ≠ Ptr.err e) :
    ∀ e, ((probe_lines env m is st).2.priv.pps_client j).pps ≠ Ptr.err e := by
  induction is generalizing st with
  | nil => exact hj
  | cons i rest ih =>
    rw [probe_lines_cons]
    have h := probe_line_no_err env m i st hreg j hj
    rcases hpl : probe_line env m i st with ⟨r, s⟩
    rw [hpl] at h
    cases r with
    | some e => exact h
    | none => exact ih s h

theorem unregister_ok_fresh (A ids : List Nat) (h : ∀ id ∈ ids, id ∉ A) :
    unregister_ok (A ++ ids) (ids.map Ptr.obj) = true := by
  induction ids with
  | nil => rfl
  | cons x xs ih =>
    have hx : x ∉ A := h x (List.mem_cons_self _ _)
    have hstep : unregister_ok (A ++ x :: xs) ((x :: xs).map Ptr.obj) =
        (decide (x ∈ A ++ x :: xs) && unregister_ok ((A ++ x :: xs).erase x)
          (xs.map Ptr.obj)) := rfl
    rw [hstep, List.erase_append_right _ hx, List.erase_cons_head,
      ih (fun id hid => h id (List.mem_cons_of_mem _ hid))]
    simp

/-- On every outcome in which no `pps_register_source` call fails and
`devm_add_action` succeeds, the run makes no undefined call and is all or nothing:
`probe` returns 0 with exactly popcount(mask & 0xFF) sources added, or a non-zero
value with the registry as it found it. -/
theorem probe_all_or_nothing_defined (env : Env) (m : Int) (k : Kernel)
    (hfresh : ∀ id ∈ k.sources, id < k.next_id)
    (hreg : ∀ i, env.pps_register_source i = none) (hact : env.devm_add_action = 0) :
    (acpi_gpio_pps_client_probe env m k).fault = false ∧
    (((acpi_gpio_pps_client_probe env m k).ret = 0 ∧
      (acpi_gpio_pps_client_probe env m k).kernel.sources.length =
        k.sources.length + popcount (Int.land m 0xFF).toNat) ∨
    ((acpi_gpio_pps_client_probe env m k).ret ≠ 0 ∧
      (acpi_gpio_pps_client_probe env m k).kernel.sources = k.sources)) := by
  refine ⟨?_, probe_registry_bookkeeping env m k hfresh⟩
  cases hz : env.devm_kzalloc with
  | false => simp [acpi_gpio_pps_client_probe, hz]
  | true =>
    rw [probe_unfold env m k hz]
    obtain ⟨n, tail, h1, h2, h3, h4, h5, h6, h7, h8⟩ :=
      probe_lines_spec env m (List.range MAX_GPIOS)
        { priv := zero_data, kernel := k, calls := [], action_added := false }
        (List.nodup_range _) (fun _ _ => rfl)
    have hf := probe_lines_fault env m (List.range MAX_GPIOS)
        { priv := zero_data, kernel := k, calls := [], action_added := false }
    have hne := fun j => probe_lines_no_err env m (List.range MAX_GPIOS)
        { priv := zero_data, kernel := k, calls := [], action_added := false } hreg j
        (fun e h => by cases h)
    simp only at h1 h2 h3 hf
    have hids := range_fresh k hfresh n
    rcases hpl : probe_lines env m (List.range MAX_GPIOS)
      { priv := zero_data, kernel := k, calls := [], action_added := false } with ⟨r, st⟩
    rw [hpl] at h1 h2 h3 hf hne
    simp only at h1 h2 h3 hf hne
    cases r with
    | some e =>
      have htail : tail = [] := by
        cases tail with
        | nil => rfl
        | cons p rest =>
          exfalso
          obtain ⟨e2, he2⟩ := h4 p (List.mem_cons_self _ _)
          have hmem : p ∈ live st.priv (List.range MAX_GPIOS) := by
            rw [h3]
            exact List.mem_append_right _ (List.mem_cons_self _ _)
          unfold live at hmem
          obtain ⟨hmap, _⟩ := List.mem_filter.1 hmem
          obtain ⟨j, _, hj⟩ := List.mem_map.1 hmap
          exact hne j e2 (hj.trans he2)
      subst htail
      rw [List.append_nil] at h3
      simp only [probe_fail_eq]
      rw [unregister_loop_fault, hf, h1, h3, unregister_ok_fresh _ _ hids]
      rfl
    | none =>
      simp only [hact, ne_eq, not_true_eq_false, if_false]
      exact hf

/-- C1 (code evaluated at the failing inputs): lines 0 and 1 are requested.
When `pps_register_source` fails for line 1, the clean-up unregisters source 0 and
then calls `pps_unregister_source` on the error pointer of line 1. When
`devm_add_action` fails, `disable` unregisters sources 0 and 1 and the clean-up then
calls `pps_unregister_source` on both of them again. Either run makes a call whose
behaviour is undefined instead of returning with a clean registry; a run that fails
at the line resolve, and the successful run, do not. -/
theorem probe_rollback_undefined :
    (acpi_gpio_pps_client_probe env_register_fails_line1 3 ⟨[], 0⟩).fault = true ∧
    (acpi_gpio_pps_client_probe env_register_fails_line1 3 ⟨[], 0⟩).calls.filter
        Call.isUnregister =
      [Call.pps_unregister_source (.obj 0),
       Call.pps_unregister_source (.err ⟨-EBUSY, by decide⟩)] ∧
    (acpi_gpio_pps_client_probe env_add_action_fails 3 ⟨[], 0⟩).fault = true ∧
    (acpi_gpio_pps_client_probe env_add_action_fails 3 ⟨[], 0⟩).calls.filter
        Call.isUnregister =
      [Call.pps_unregister_source (.obj 0), Call.pps_unregister_source (.obj 1),
       Call.pps_unregister_source (.obj 0), Call.pps_unregister_source (.obj 1)] ∧
    (acpi_gpio_pps_client_probe env_line0_absent 3 ⟨[], 0⟩).fault = false ∧
    (acpi_gpio_pps_client_probe env_ok 3 ⟨[], 0⟩).fault = false := by
  decide

end AcpiGpioPpsClient

namespace AcpiGpioPpsClient

open LinuxPps

/-- C2 (code evaluated at the failing inputs): when `pps_register_source` fails for
line 0 the clean-up passes the error pointer itself to `pps_unregister_source`,
although no source was registered; and when `devm_add_action` fails the one
registered source is unregistered twice. -/
theorem probe_rollback_invalid_unregister :
    (acpi_gpio_pps_client_probe env_register_fails 1 ⟨[], 0⟩).calls.filter Call.isUnregister =
      [Call.pps_unregister_source (.err ⟨-EBUSY, by decide⟩)] ∧
    (acpi_gpio_pps_client_probe env_add_action_fails 1 ⟨[], 0⟩).calls.filter Call.isUnregister =
      [Call.pps_unregister_source (.obj 0), Call.pps_unregister_source (.obj 0)] := by
  decide

/-- C3 (code evaluated at the failing input): with lines 0 and 1 requested and
line 0 failing to resolve, `probe` returns 1 whether the cause is `-ENOENT` or
`-EPROBE_DEFER`; in both cases it made no call after the failed
`devm_gpiod_get` and registered nothing. -/
theorem probe_resolve_failure_returns_one :
    (acpi_gpio_pps_client_probe env_line0_absent 3 ⟨[], 0⟩).ret = 1 ∧
    (acpi_gpio_pps_client_probe env_line0_deferred 3 ⟨[], 0⟩).ret = 1 ∧
    (acpi_gpio_pps_client_probe env_line0_absent 3 ⟨[], 0⟩).calls =
      [Call.devm_gpiod_get "GPIO00"] ∧
    (acpi_gpio_pps_client_probe env_line0_deferred 3 ⟨[], 0⟩).calls =
      [Call.devm_gpiod_get "GPIO00"] ∧
    (acpi_gpio_pps_client_probe env_line0_absent 3 ⟨[], 0⟩).kernel.sources = [] := by
  decide

/-- C4 (counterexample): on a table that holds one registered source, the second
of two consecutive `disable` calls invokes `pps_unregister_source` again. -/
theorem disable_second_call_unregisters_again :
    ¬ ((acpi_gpio_pps_client_disable (acpi_gpio_pps_client_disable state_one_source)).calls =
        (acpi_gpio_pps_client_disable state_one_source).calls) ∧
    (acpi_gpio_pps_client_disable (acpi_gpio_pps_client_disable state_one_source)).calls =
      [Call.pps_unregister_source (.obj 0), Call.pps_unregister_source (.obj 0)] := by
  decide

end AcpiGpioPpsClient

namespace AcpiGpioPpsClient

open LinuxPps

/-! ## Teardown -/

/-- C4 (amended): `disable` never changes the slot table, calls
`pps_unregister_source` once for every slot whose `pps` field is not NULL (on every
call, also on a repeated one), and is a no-op, no call and no change, exactly when
the `pps` field of all 8 slots is NULL. -/
theorem disable_noop_iff (st : ProbeState) :
    (acpi_gpio_pps_client_disable st).priv = st.priv ∧
    (acpi_gpio_pps_client_disable st).calls =
      st.calls ++ (live st.priv (List.range MAX_GPIOS)).map Call.pps_unregister_source ∧
    (acpi_gpio_pps_client_disable st = st ↔
      ∀ i, i < MAX_GPIOS → (st.priv.pps_client i).pps = Ptr.null) := by
  rw [disable_eq_unregister_loop]
  obtain ⟨h1, h2, h3, h4, h5⟩ := unregister_loop_spec (List.range MAX_GPIOS) st
  refine ⟨h1, h5, ?_, ?_⟩
  · intro heq
    have hcalls : (live st.priv (List.range MAX_GPIOS)).map Call.pps_unregister_source = [] := by
      have := h5
      rw [heq] at this
      exact List.append_right_eq_self.1 this.symm
    have hlive : live st.priv (List.range MAX_GPIOS) = [] := List.map_eq_nil_iff.1 hcalls
    intro i hi
    have hmem : (st.priv.pps_client i).pps ∈
        (List.range MAX_GPIOS).map (fun i => (st.priv.pps_client i).pps) :=
      List.mem_map.2 ⟨i, List.mem_range.2 hi, rfl⟩
    cases hp : (st.priv.pps_client i).pps with
    | null => rfl
    | obj id =>
      have : Ptr.obj id ∈ live st.priv (List.range MAX_GPIOS) := by
        unfold live
        exact List.mem_filter.2 ⟨hp ▸ hmem, rfl⟩
      rw [hlive] at this
      cases this
    | err e =>
      have : Ptr.err e ∈ live st.priv (List.range MAX_GPIOS) := by
        unfold live
        exact List.mem_filter.2 ⟨hp ▸ hmem, rfl⟩
      rw [hlive] at this
      cases this
  · intro hnull
    have hlive : live st.priv (List.range MAX_GPIOS) = [] :=
      live_null _ _ (fun j hj => hnull j (List.mem_range.1 hj))
    rw [hlive] at h4 h5
    simp only [erase_all, List.foldl_nil, List.map_nil, List.append_nil] at h4 h5
    have h6 := unregister_loop_fault (List.range MAX_GPIOS) st
    rw [hlive] at h6
    simp only [unregister_ok, Bool.not_true, Bool.or_false] at h6
    rcases hst : unregister_loop (List.range MAX_GPIOS) st with ⟨p, ⟨srcs, nxt⟩, c, a, f⟩
    rw [hst] at h1 h2 h3 h4 h5 h6
    rcases st with ⟨p0, ⟨srcs0, nxt0⟩, c0, a0, f0⟩
    simp only at h1 h2 h3 h4 h5 h6
    subst h1 h2 h3 h4 h5 h6
    rfl

/-! ## The calls made by `probe` -/

theorem probe_line_calls (env : Env) (m : Int) (i : Nat) (st : ProbeState) :
    ∃ new, (probe_line env m i st).2.calls = st.calls ++ new ∧
      ∀ md ∈ new.filterMap Call.registeredMode, md = registered_mode := by
  by_cases h : Int.land m ((1 : Int) <<< (i : Int)) ≠ 0
  · unfold probe_line
    simp only [if_pos h]
    cases hg : env.devm_gpiod_get i with
    | error e =>
      exact ⟨[.devm_gpiod_get (gpio_names.getD i "")], by
        simp [IS_ERR, ProbeState.setClient, ProbeState.call, Call.registeredMode]⟩
    | ok d =>
      simp only [IS_ERR]
      by_cases hirq : env.gpiod_to_irq i < 0
      · exact ⟨[.devm_gpiod_get (gpio_names.getD i ""), .gpiod_to_irq (.obj d)], by
          simp [hirq, ProbeState.setClient, ProbeState.call, Call.registeredMode]⟩
      · cases hr : env.pps_register_source i with
        | some e =>
          exact ⟨[.devm_gpiod_get (gpio_names.getD i ""), .gpiod_to_irq (.obj d),
              .pps_register_source { name := pps_info_name i, mode := registered_mode }
                (Int.lor PPS_CAPTUREASSERT PPS_OFFSETASSERT)], by
            simp [hirq, hr, pps_register_source, IS_ERR, ProbeState.setClient,
              ProbeState.call, Call.registeredMode, registered_mode]⟩
        | none =>
          refine ⟨[.devm_gpiod_get (gpio_names.getD i ""), .gpiod_to_irq (.obj d),
              .pps_register_source { name := pps_info_name i, mode := registered_mode }
                (Int.lor PPS_CAPTUREASSERT PPS_OFFSETASSERT),
              .devm_request_irq (env.gpiod_to_irq i) IRQF_TRIGGER_RISING (pps_info_name i)], ?_⟩
          by_cases hq : env.devm_request_irq i = 0
          · simp [hirq, hr, hq, pps_register_source, IS_ERR, ProbeState.setClient,
              ProbeState.call, Call.registeredMode, registered_mode]
          · simp [hirq, hr, hq, pps_register_source, IS_ERR, ProbeState.setClient,
              ProbeState.call, Call.registeredMode, registered_mode]
  · refine ⟨[], ?_⟩
    unfold probe_line
    simp only [if_neg h]
    simp

theorem probe_lines_calls (env : Env) (m : Int) (is : List Nat) (st : ProbeState) :
    ∃ new, (probe_lines env m is st).2.calls = st.calls ++ new ∧
      ∀ md ∈ new.filterMap Call.registeredMode, md = registered_mode := by
  induction is generalizing st with
  | nil => exact ⟨[], by simp [probe_lines]⟩
  | cons i rest ih =>
    rw [probe_lines_cons]
    obtain ⟨new1, h1, h2⟩ := probe_line_calls env m i st
    rcases hpl : probe_line env m i st with ⟨r, s⟩
    rw [hpl] at h1
    simp only at h1
    cases r with
    | some e => exact ⟨new1, h1, h2⟩
    | none =>
      obtain ⟨new2, h3, h4⟩ := ih s
      refine ⟨new1 ++ new2, ?_, ?_⟩
      · simp only
        rw [h3, h1, List.append_assoc]
      · intro md hmd
        rw [List.filterMap_append, List.mem_append] at hmd
        rcases hmd with hmd | hmd
        · exact h2 md hmd
        · exact h4 md hmd

theorem filterMap_registeredMode_unregister (ps : List Ptr) :
    (ps.map Call.pps_unregister_source).filterMap Call.registeredMode = [] := by
  induction ps with
  | nil => rfl
  | cons p rest ih => simp [Call.registeredMode]

/-- C5 (counterexample): with mask 1 and every step succeeding, the one capability
mask passed to `pps_register_source` is not the claimed set with CaptureClear. -/
theorem probe_mode_is_not_claimed :
    ¬ ((acpi_gpio_pps_client_probe env_ok 1 ⟨[], 0⟩).calls.filterMap Call.registeredMode =
      [Int.lor (Int.lor (Int.lor (Int.lor PPS_CAPTUREASSERT PPS_CAPTURECLEAR)
        PPS_ECHOASSERT) PPS_CANWAIT) PPS_TSFMT_TSPEC]) := by
  decide

/-- C5 (amended): every capability mask that `probe` passes to
`pps_register_source` is exactly PPS_CAPTUREASSERT | PPS_OFFSETASSERT |
PPS_ECHOASSERT | PPS_CANWAIT | PPS_TSFMT_TSPEC; PPS_CAPTURECLEAR is not in it. -/
theorem probe_registered_mode (env : Env) (m : Int) (k : Kernel) (md : Int)
    (h : md ∈ (acpi_gpio_pps_client_probe env m k).calls.filterMap Call.registeredMode) :
    md = Int.lor (Int.lor (Int.lor (Int.lor PPS_CAPTUREASSERT PPS_OFFSETASSERT)
        PPS_ECHOASSERT) PPS_CANWAIT) PPS_TSFMT_TSPEC ∧
    Int.land md PPS_CAPTURECLEAR = 0 := by
  have key : md = registered_mode := by
    cases hz : env.devm_kzalloc with
    | false =>
      simp [acpi_gpio_pps_client_probe, hz] at h
    | true =>
      rw [probe_unfold env m k hz] at h
      obtain ⟨new, h1, h2⟩ := probe_lines_calls env m (List.range MAX_GPIOS)
        { priv := zero_data, kernel := k, calls := [], action_added := false }
      rcases hpl : probe_lines env m (List.range MAX_GPIOS)
        { priv := zero_data, kernel := k, calls := [], action_added := false } with ⟨r, st⟩
      rw [hpl] at h h1
      simp only [List.nil_append] at h h1
      cases r with
      | some e =>
        simp only [probe_fail_eq] at h
        rw [(unregister_loop_spec _ st).2.2.2.2, List.filterMap_append,
          filterMap_registeredMode_unregister, List.append_nil, h1] at h
        exact h2 md h
      | none =>
        by_cases ha : env.devm_add_action = 0
        · simp only [ha, ne_eq, not_true_eq_false, if_false] at h
          rw [List.filterMap_append, h1] at h
          simp only [List.filterMap_cons, Call.registeredMode, List.filterMap_nil,
            List.append_nil] at h
          exact h2 md h
        · simp only [ne_eq, ha, not_false_eq_true, if_true, probe_fail_eq,
            disable_eq_unregister_loop] at h
          rw [(unregister_loop_spec _ _).2.2.2.2, (unregister_loop_spec _ _).2.2.2.2,
            List.filterMap_append, List.filterMap_append,
            filterMap_registeredMode_unregister, filterMap_registeredMode_unregister] at h
          simp only [ProbeState.call, List.filterMap_append, List.filterMap_cons,
            Call.registeredMode, List.filterMap_nil, List.append_nil, h1] at h
          exact h2 md h
  subst key
  exact ⟨rfl, by decide⟩

/-- C5 (witness): mask 1, every step succeeding. -/
theorem probe_registered_mode_witness :
    (0x1151 : Int) ∈
      (acpi_gpio_pps_client_probe env_ok 1 ⟨[], 0⟩).calls.filterMap Call.registeredMode ∧
    ((0x1151 : Int) = Int.lor (Int.lor (Int.lor (Int.lor PPS_CAPTUREASSERT PPS_OFFSETASSERT)
        PPS_ECHOASSERT) PPS_CANWAIT) PPS_TSFMT_TSPEC ∧
      Int.land 0x1151 PPS_CAPTURECLEAR = 0) :=
  ⟨by decide, probe_registered_mode env_ok 1 ⟨[], 0⟩ 0x1151 (by decide)⟩

end AcpiGpioPpsClient

namespace AcpiGpioPpsClient

open LinuxPps

/-! ## The slot table after `probe` -/

theorem probe_line_frame (env : Env) (m : Int) (i : Nat) (st : ProbeState) (j : Nat)
    (hj : j ≠ i) : (probe_line env m i st).2.priv.pps_client j = st.priv.pps_client j := by
  cases hen : line_enabled m i with
  | false => rw [probe_line_disabled env m i st hen]
  | true => exact (probe_line_spec env m i st hen).1 j hj

theorem probe_lines_frame (env : Env) (m : Int) (is : List Nat) (st : ProbeState) (j : Nat)
    (hj : j ∉ is) : (probe_lines env m is st).2.priv.pps_client j = st.priv.pps_client j := by
  induction is generalizing st with
  | nil => rfl
  | cons i rest ih =>
    have hji : j ≠ i := fun h => hj (h ▸ List.mem_cons_self _ _)
    have hjr : j ∉ rest := fun h => hj (List.mem_cons_of_mem _ h)
    rw [probe_lines_cons]
    have hf := probe_line_frame env m i st j hji
    rcases hpl : probe_line env m i st with ⟨r, s⟩
    rw [hpl] at hf
    cases r with
    | some e => exact hf
    | none =>
      simp only
      rw [ih s hjr]
      exact hf

theorem probe_line_ok (env : Env) (m : Int) (i : Nat) (st : ProbeState)
    (hen : line_enabled m i = true) (hr : (probe_line env m i st).1 = none) :
    slot_populated ((probe_line env m i st).2.priv.pps_client i) = true := by
  unfold line_enabled at hen
  simp only [decide_eq_true_eq] at hen
  unfold probe_line at hr ⊢
  simp only [if_pos hen] at hr ⊢
  cases hg : env.devm_gpiod_get i with
  | error e => simp [hg, IS_ERR] at hr
  | ok d =>
    simp only [hg, IS_ERR] at hr ⊢
    by_cases hirq : env.gpiod_to_irq i < 0
    · simp [hirq] at hr
    · cases hreg : env.pps_register_source i with
      | some e =>
        simp [hirq, hreg, pps_register_source, IS_ERR] at hr
      | none =>
        by_cases hq : env.devm_request_irq i = 0
        · have hmode : Int.lor (Int.lor (Int.lor (Int.lor PPS_CAPTUREASSERT PPS_OFFSETASSERT)
              PPS_ECHOASSERT) PPS_CANWAIT) PPS_TSFMT_TSPEC ≠ 0 := by decide
          simp [hirq, hreg, hq, pps_register_source, IS_ERR, ProbeState.setClient,
            ProbeState.call, Function.update, slot_populated, Ptr.isObj, hmode]
          omega
        · simp [hirq, hreg, hq, pps_register_source, IS_ERR] at hr

theorem probe_lines_ok (env : Env) (m : Int) (is : List Nat) (st : ProbeState)
    (hnd : is.Nodup) (hr : (probe_lines env m is st).1 = none) :
    ∀ i ∈ is,
      (line_enabled m i = true →
        slot_populated ((probe_lines env m is st).2.priv.pps_client i) = true) ∧
      (line_enabled m i = false →
        (probe_lines env m is st).2.priv.pps_client i = st.priv.pps_client i) := by
  induction is generalizing st with
  | nil => intro i hi; cases hi
  | cons i rest ih =>
    have hi : i ∉ rest := (List.nodup_cons.1 hnd).1
    have hrest : rest.Nodup := (List.nodup_cons.1 hnd).2
    rw [probe_lines_cons] at hr ⊢
    have hok := probe_line_ok env m i st
    have hdis := probe_line_disabled env m i st
    have hfr := fun j hj => probe_line_frame env m i st j hj
    rcases hpl : probe_line env m i st with ⟨r, s⟩
    rw [hpl] at hr hok hdis hfr
    cases r with
    | some e => simp at hr
    | none =>
      simp only at hr hok hfr ⊢
      intro j hj
      rcases List.mem_cons.1 hj with hji | hjr
      · subst hji
        rw [probe_lines_frame env m rest s j hi]
        refine ⟨fun hen => hok hen trivial, fun hen => ?_⟩
        have := hdis hen
        rw [Prod.mk.injEq] at this
        rw [this.2]
      · have hne : j ≠ i := fun h => hi (h ▸ hjr)
        obtain ⟨h1, h2⟩ := ih s hrest hr j hjr
        refine ⟨h1, fun hen => ?_⟩
        rw [h2 hen, hfr j hne]

/-- C6 (counterexample): after the probe that fails because `pps_register_source`
fails for line 0, slot 0 is neither fully populated nor empty: its line descriptor
and interrupt number are set, its source handle is an error value. -/
theorem probe_failure_partial_slot :
    ((acpi_gpio_pps_client_probe env_register_fails 1 ⟨[], 0⟩).priv.map
      (fun p => (slot_populated (p.pps_client 0), slot_empty (p.pps_client 0),
        (p.pps_client 0).gpio, (p.pps_client 0).irq, (p.pps_client 0).pps))) =
      some (false, false, Ptr.obj 100, 40, Ptr.err ⟨-EBUSY, by decide⟩) := by
  decide

/-- C6 (amended): when `probe` returns 0, each of the 8 slots is fully populated
(if its mask bit is set) or empty (if it is not). -/
theorem probe_success_slots (env : Env) (m : Int) (k : Kernel)
    (h : (acpi_gpio_pps_client_probe env m k).ret = 0) :
    ∃ p, (acpi_gpio_pps_client_probe env m k).priv = some p ∧
      ∀ i, i < MAX_GPIOS →
        (line_enabled m i = true ∧ slot_populated (p.pps_client i) = true) ∨
        (line_enabled m i = false ∧ slot_empty (p.pps_client i) = true) := by
  cases hz : env.devm_kzalloc with
  | false => simp [acpi_gpio_pps_client_probe, hz, ENOMEM] at h
  | true =>
    rw [probe_unfold env m k hz] at h ⊢
    obtain ⟨n, tail, h1, h2, h3, h4, h5, h6, h7, h8⟩ :=
      probe_lines_spec env m (List.range MAX_GPIOS)
        { priv := zero_data, kernel := k, calls := [], action_added := false }
        (List.nodup_range _) (fun _ _ => rfl)
    have hok := probe_lines_ok env m (List.range MAX_GPIOS)
        { priv := zero_data, kernel := k, calls := [], action_added := false }
        (List.nodup_range _)
    rcases hpl : probe_lines env m (List.range MAX_GPIOS)
      { priv := zero_data, kernel := k, calls := [], action_added := false } with ⟨r, st⟩
    rw [hpl] at h h8 hok
    simp only at h h8 hok
    cases r with
    | some e =>
      simp only [probe_fail_eq] at h
      exact absurd h (h8 e rfl)
    | none =>
      by_cases ha : env.devm_add_action = 0
      · simp only [ha, ne_eq, not_true_eq_false, if_false]
        refine ⟨st.priv, rfl, fun i hi => ?_⟩
        obtain ⟨hen, hdis⟩ := hok rfl i (List.mem_range.2 hi)
        cases hb : line_enabled m i with
        | true => exact Or.inl ⟨rfl, hen hb⟩
        | false =>
          refine Or.inr ⟨rfl, ?_⟩
          rw [hdis hb]
          show slot_empty zero_device_data = true
          decide
      · simp only [ne_eq, ha, not_false_eq_true, if_true, probe_fail_eq] at h

/-- C6 (witness): mask 3, every step succeeding. -/
theorem probe_success_slots_witness :
    (acpi_gpio_pps_client_probe env_ok 3 ⟨[], 0⟩).ret = 0 ∧
    ∃ p, (acpi_gpio_pps_client_probe env_ok 3 ⟨[], 0⟩).priv = some p ∧
      ∀ i, i < MAX_GPIOS →
        (line_enabled 3 i = true ∧ slot_populated (p.pps_client i) = true) ∨
        (line_enabled 3 i = false ∧ slot_empty (p.pps_client i) = true) :=
  ⟨by decide, probe_success_slots env_ok 3 ⟨[], 0⟩ (by decide)⟩

end AcpiGpioPpsClient

namespace PpsTool

open LinuxPps

/-! ## The client -/

theorem boolToInt_nonneg (b : Bool) : ¬ (boolToInt b < 0) := by
  cases b <;> decide

/-- With at least one round of fuel `print` returns, always `true`, after exactly
one `fetch` and with exactly one report line. -/
theorem print_eq (os : OS) (fuel : Nat) (pps : Device) (modes : Int) (data : pps_fdata)
    (w : World) :
    print os (fuel + 1) pps modes data w =
      some (true,
        (pps.fetch os data { tv_sec := 3, tv_nsec := 0 }
          (if Int.land modes PPS_CANWAIT ≠ 0 then w else w.emit (.sleep_for 1))).2.1,
        ((pps.fetch os data { tv_sec := 3, tv_nsec := 0 }
          (if Int.land modes PPS_CANWAIT ≠ 0 then w else w.emit (.sleep_for 1))).2.2.2).emit
          (reportLine pps._devname
            (pps.fetch os data { tv_sec := 3, tv_nsec := 0 }
              (if Int.land modes PPS_CANWAIT ≠ 0 then w else w.emit (.sleep_for 1))).2.2.1)) := by
  have hname : ∀ (d : pps_fdata) (v : World),
      (pps.fetch os d { tv_sec := 3, tv_nsec := 0 } v).2.1._devname = pps._devname := by
    intro d v
    unfold Device.fetch
    split
    · dsimp only
      split <;> rfl
    · rfl
  unfold print print_loop
  simp only [if_neg (boolToInt_nonneg _)]
  rw [← hname data (if Int.land modes PPS_CANWAIT ≠ 0 then w else w.emit (.sleep_for 1))]
  rfl

/-- The run loop never ends: whatever the operating system answers, `print` returns
`true` in every round. -/
theorem main_loop_running (os : OS) (modes : Int) (fuel k : Nat) (pps : Device) (w : World) :
    (main_loop os modes fuel k pps w).1 = none := by
  induction fuel generalizing k pps w with
  | zero => rfl
  | succ fuel ih =>
    unfold main_loop
    rw [print_eq]
    exact ih _ _ _

/-- C7 (code evaluated at the failing input): the `PPS_FETCH` request fails with
EIO; `print` nevertheless writes a report line (with the indeterminate content of
`data`) and returns `true`, and `main` is still running after 5 rounds, having
written 5 such report lines. -/
theorem print_reports_after_failed_fetch :
    print (os_fetch_failing 0x1151 0 1 EIO) 1 device_ok 0x1151 fdata_zero World.start =
      some (true, { device_ok with _err := EIO },
        { events := [.ioctl 3 (.PPS_FETCH { sec := 3, nsec := 0, flags := 0 }),
            reportLine DefaultDevice fdata_zero],
          ioctls := 1, errno := EIO }) ∧
    (main (os_fetch_failing 0x1151 3 1 EIO) ["ppstool".toList] 5).1 = none ∧
    (main (os_fetch_failing 0x1151 3 1 EIO) ["ppstool".toList] 5).2.events.filter Event.isReport =
      List.replicate 5 (reportLine DefaultDevice fdata_zero) := by
  decide

/-- C8 (code evaluated at the failing input): the first three `PPS_FETCH` requests
would be interrupted (EINTR) and the fourth would succeed. After 4 rounds of the run
loop the client has written 4 report lines, none of them with the data of the
successful fetch, has issued a single `PPS_FETCH` (the fourth `ioctl` of the
process), has written no warning, and is still running. -/
theorem run_loop_reports_interrupted_fetch :
    (main (os_fetch_failing 0x1151 3 3 EINTR) ["ppstool".toList] 4).1 = none ∧
    (main (os_fetch_failing 0x1151 3 3 EINTR) ["ppstool".toList] 4).2.events.filter
        Event.isReport = List.replicate 4 (reportLine DefaultDevice fdata_zero) ∧
    (main (os_fetch_failing 0x1151 3 3 EINTR) ["ppstool".toList] 4).2.events.filter
        Event.isIoctl =
      [.ioctl 3 .PPS_GETCAP, .ioctl 3 .PPS_GETPARAMS,
       .ioctl 3 (.PPS_SETPARAMS kparams_default),
       .ioctl 3 (.PPS_FETCH { sec := 3, nsec := 0, flags := 0 })] ∧
    reportLine DefaultDevice fdata_event ∉
      (main (os_fetch_failing 0x1151 3 3 EINTR) ["ppstool".toList] 4).2.events ∧
    Event.cerr .fetch_intr ∉
      (main (os_fetch_failing 0x1151 3 3 EINTR) ["ppstool".toList] 4).2.events := by
  decide

end PpsTool

namespace PpsTool

open LinuxPps

/-! ## Negotiation -/

theorem testBit_captureassert (b : Nat) : Int.testBit PPS_CAPTUREASSERT b = decide (b = 0) := by
  show Nat.testBit (2 ^ 0) b = decide (b = 0)
  rw [Nat.testBit_two_pow]
  simp [eq_comm]

theorem testBit_offsetassert (b : Nat) : Int.testBit PPS_OFFSETASSERT b = decide (b = 4) := by
  show Nat.testBit (2 ^ 4) b = decide (b = 4)
  rw [Nat.testBit_two_pow]
  simp [eq_comm]

/-- C9: when the capability query answers a mask without PPS_CAPTUREASSERT,
`prepare` returns false (0) after the single request PPS_GETCAP, with no
PPS_GETPARAMS and no PPS_SETPARAMS request, and `main` exits with status 1. -/
theorem prepare_requires_captureassert (os : OS) (c : Int) (pps : Device)
    (offset : pps_ktime) (modes : Int) (w : World) (argv : List CxxString) (fuel : Nat)
    (devname : CxxString) (fd : Int)
    (hca : Int.land c PPS_CAPTUREASSERT = 0)
    (hvalid : pps.valid = true) (hcap : os.getcap w.ioctls = .ok c)
    (hargs : main_args argv.tail DefaultDevice = some devname)
    (hopen : os.sys_open devname = .ok fd) (hfd : fd > -1) (hcap0 : os.getcap 0 = .ok c) :
    (prepare os pps offset modes w).1 = 0 ∧
    (prepare os pps offset modes w).2.2.2.events =
      w.events ++ [.cerr (.working pps._devname), .ioctl pps._fd .PPS_GETCAP,
        .cerr .captureassert_notsupported] ∧
    (main os argv fuel).1 = some 1 ∧
    (main os argv fuel).2.events =
      [.sys_open devname, .cerr (.working devname), .ioctl fd .PPS_GETCAP,
        .cerr .captureassert_notsupported] := by
  have hprep : ∀ (d : Device) (o : pps_ktime) (m : Int) (v : World), d.valid = true →
      os.getcap v.ioctls = .ok c →
      (prepare os d o m v).1 = 0 ∧
      (prepare os d o m v).2.2.2.events =
        v.events ++ [.cerr (.working d._devname), .ioctl d._fd .PPS_GETCAP,
          .cerr .captureassert_notsupported] := by
    intro d o m v hv hc
    unfold prepare
    simp [hv, Device.caps, World.emit, World.ioctl, hc, hca, boolToInt, Device.deviceName]
  refine ⟨(hprep pps offset modes w hvalid hcap).1, (hprep pps offset modes w hvalid hcap).2, ?_⟩
  have hdev : Device.new os devname World.start =
      (.ok { _devname := devname, _fd := fd, _err := 0 },
        World.start.emit (.sys_open devname)) := by
    unfold Device.new Device.open
    simp [hopen, hfd, Device.valid]
  have hv : ({ _devname := devname, _fd := fd, _err := 0 } : Device).valid = true := by
    simp [Device.valid, hfd]
  obtain ⟨h1, h2⟩ := hprep { _devname := devname, _fd := fd, _err := 0 }
    { sec := 0, nsec := 0, flags := 0 } 0 (World.start.emit (.sys_open devname)) hv hcap0
  unfold main
  simp only [hargs, hdev]
  rcases hp : prepare os { _devname := devname, _fd := fd, _err := 0 }
    { sec := 0, nsec := 0, flags := 0 } 0 (World.start.emit (.sys_open devname))
    with ⟨ret, d2, m2, w2⟩
  rw [hp] at h1 h2
  simp only at h1 h2
  subst h1
  simp only [if_true, true_and]
  rw [h2]
  rfl

/-- C9 (witness): the capability {OffsetAssert, CanWait} lacks CaptureAssert. -/
theorem prepare_requires_captureassert_witness :
    (Int.land 0x110 PPS_CAPTUREASSERT = 0 ∧ device_ok.valid = true ∧
      (os_session 0x110 kparams_default).getcap World.start.ioctls = .ok 0x110 ∧
      main_args ["ppstool".toList].tail DefaultDevice = some DefaultDevice ∧
      (os_session 0x110 kparams_default).sys_open DefaultDevice = .ok 3 ∧ (3 : Int) > -1 ∧
      (os_session 0x110 kparams_default).getcap 0 = .ok 0x110) ∧
    ((prepare (os_session 0x110 kparams_default) device_ok ktime_zero 0 World.start).1 = 0 ∧
    (prepare (os_session 0x110 kparams_default) device_ok ktime_zero 0 World.start).2.2.2.events =
      World.start.events ++ [.cerr (.working device_ok._devname),
        .ioctl device_ok._fd .PPS_GETCAP, .cerr .captureassert_notsupported] ∧
    (main (os_session 0x110 kparams_default) ["ppstool".toList] 2).1 = some 1 ∧
    (main (os_session 0x110 kparams_default) ["ppstool".toList] 2).2.events =
      [.sys_open DefaultDevice, .cerr (.working DefaultDevice), .ioctl 3 .PPS_GETCAP,
        .cerr .captureassert_notsupported]) :=
  ⟨⟨by decide, by decide, rfl, by decide, rfl, by decide, rfl⟩,
    prepare_requires_captureassert (os_session 0x110 kparams_default) 0x110 device_ok ktime_zero 0
      World.start ["ppstool".toList] 2 DefaultDevice 3 (by decide) (by decide) rfl (by decide)
      rfl (by decide) rfl⟩

/-- C10: when the capability holds PPS_CAPTUREASSERT and all three requests
succeed, `prepare` returns true and issues exactly one PPS_SETPARAMS request `q`,
which agrees with the parameters `p` read before in `api_version` and
`clear_off_tu`. If the capability holds PPS_OFFSETASSERT, the mode of `q` is the
mode of `p` with bits 0 (CaptureAssert) and 4 (OffsetAssert) set and the assert
offset of `q` is the caller's `offset`; otherwise the mode of `q` is the mode of
`p` with bit 0 set and the assert offset is that of `p`. -/
theorem prepare_commits_merged_parameters (os : OS) (pps : Device) (offset : pps_ktime)
    (modes : Int) (w : World) (c : Int) (p : pps_kparams)
    (hvalid : pps.valid = true) (hcap : os.getcap w.ioctls = .ok c)
    (hca : Int.land c PPS_CAPTUREASSERT ≠ 0)
    (hget : os.getparams (w.ioctls + 1) = .ok p)
    (hset : ∀ q, os.setparams (w.ioctls + 2) q = none) :
    ∃ q : pps_kparams,
      (prepare os pps offset modes w).1 = 1 ∧
      (prepare os pps offset modes w).2.2.2.events.filterMap Event.setParams =
        w.events.filterMap Event.setParams ++ [q] ∧
      q.api_version = p.api_version ∧ q.clear_off_tu = p.clear_off_tu ∧
      (Int.land c PPS_OFFSETASSERT ≠ 0 →
        (∀ b, q.mode.testBit b = (p.mode.testBit b || decide (b = 0) || decide (b = 4))) ∧
        q.assert_off_tu = offset) ∧
      (Int.land c PPS_OFFSETASSERT = 0 →
        (∀ b, q.mode.testBit b = (p.mode.testBit b || decide (b = 0))) ∧
        q.assert_off_tu = p.assert_off_tu) := by
  by_cases hoa : Int.land c PPS_OFFSETASSERT = 0
  · refine ⟨{ p with mode := Int.lor p.mode PPS_CAPTUREASSERT }, ?_, ?_, rfl, rfl, ?_, ?_⟩
    · unfold prepare
      simp [hvalid, Device.caps, Device.parameters, Device.setParameters, World.emit,
        World.ioctl, hcap, hca, hoa, hget, hset, boolToInt]
    · unfold prepare
      simp [hvalid, Device.caps, Device.parameters, Device.setParameters, World.emit,
        World.ioctl, hcap, hca, hoa, hget, hset, boolToInt, Event.setParams]
    · intro h; exact absurd hoa h
    · intro _
      refine ⟨fun b => ?_, rfl⟩
      show Int.testBit (Int.lor p.mode PPS_CAPTUREASSERT) b = _
      rw [Int.testBit_lor, testBit_captureassert]
  · refine ⟨{ p with mode := Int.lor (Int.lor p.mode PPS_CAPTUREASSERT) PPS_OFFSETASSERT,
                     assert_off_tu := offset }, ?_, ?_, rfl, rfl, ?_, ?_⟩
    · unfold prepare
      simp [hvalid, Device.caps, Device.parameters, Device.setParameters, World.emit,
        World.ioctl, hcap, hca, hoa, hget, hset, boolToInt]
    · unfold prepare
      simp [hvalid, Device.caps, Device.parameters, Device.setParameters, World.emit,
        World.ioctl, hcap, hca, hoa, hget, hset, boolToInt, Event.setParams]
    · intro _
      refine ⟨fun b => ?_, rfl⟩
      show Int.testBit (Int.lor (Int.lor p.mode PPS_CAPTUREASSERT) PPS_OFFSETASSERT) b = _
      rw [Int.testBit_lor, Int.testBit_lor, testBit_captureassert, testBit_offsetassert]
    · intro h; exact absurd h hoa

end PpsTool

namespace PpsTool

open LinuxPps

/-- C10 (witness): capability {CaptureAssert, OffsetAssert, CanWait}, offset
500,000,000 ns; the one committed request has mode 0x13 (the stored 0x02 with
CaptureAssert and OffsetAssert added) and assert offset 500,000,000 ns. -/
theorem prepare_commits_merged_parameters_witness :
    (device_ok.valid = true ∧
      (os_session 0x111 kparams_clear).getcap World.start.ioctls = .ok 0x111 ∧
      Int.land 0x111 PPS_CAPTUREASSERT ≠ 0 ∧
      (os_session 0x111 kparams_clear).getparams (World.start.ioctls + 1) = .ok kparams_clear ∧
      (∀ q, (os_session 0x111 kparams_clear).setparams (World.start.ioctls + 2) q = none)) ∧
    (∃ q : pps_kparams,
      (prepare (os_session 0x111 kparams_clear) device_ok
        { sec := 0, nsec := 500000000, flags := 0 } 0 World.start).1 = 1 ∧
      (prepare (os_session 0x111 kparams_clear) device_ok
        { sec := 0, nsec := 500000000, flags := 0 } 0 World.start).2.2.2.events.filterMap
          Event.setParams = World.start.events.filterMap Event.setParams ++ [q] ∧
      q.api_version = kparams_clear.api_version ∧ q.clear_off_tu = kparams_clear.clear_off_tu ∧
      (Int.land 0x111 PPS_OFFSETASSERT ≠ 0 →
        (∀ b, q.mode.testBit b =
          (kparams_clear.mode.testBit b || decide (b = 0) || decide (b = 4))) ∧
        q.assert_off_tu = { sec := 0, nsec := 500000000, flags := 0 }) ∧
      (Int.land 0x111 PPS_OFFSETASSERT = 0 →
        (∀ b, q.mode.testBit b = (kparams_clear.mode.testBit b || decide (b = 0))) ∧
        q.assert_off_tu = kparams_clear.assert_off_tu)) ∧
    (prepare (os_session 0x111 kparams_clear) device_ok
        { sec := 0, nsec := 500000000, flags := 0 } 0 World.start).2.2.2.events.filterMap
          Event.setParams =
      [{ api_version := 1, mode := 0x13,
         assert_off_tu := { sec := 0, nsec := 500000000, flags := 0 },
         clear_off_tu := { sec := 0, nsec := 125, flags := 0 } }] :=
  ⟨⟨by decide, rfl, by decide, rfl, fun _ => rfl⟩,
    prepare_commits_merged_parameters (os_session 0x111 kparams_clear) device_ok
      { sec := 0, nsec := 500000000, flags := 0 } 0 World.start 0x111 kparams_clear
      (by decide) rfl (by decide) rfl (fun _ => rfl),
    by decide⟩

end PpsTool

namespace PpsTool

open LinuxPps

/-! ## Negotiated mode and capability -/

theorem testBit_zero_of_captureassert (c : Int) (h : Int.land c PPS_CAPTUREASSERT ≠ 0) :
    c.testBit 0 = true := by
  have e : (1 : Int) <<< ((0 : Nat) : Int) = PPS_CAPTUREASSERT := by decide
  exact (AcpiGpioPpsClient.land_one_shiftLeft_ne_zero c 0).1 (e ▸ h)

theorem testBit_four_of_offsetassert (c : Int) (h : Int.land c PPS_OFFSETASSERT ≠ 0) :
    c.testBit 4 = true := by
  have e : (1 : Int) <<< ((4 : Nat) : Int) = PPS_OFFSETASSERT := by decide
  exact (AcpiGpioPpsClient.land_one_shiftLeft_ne_zero c 4).1 (e ▸ h)

/-- The one `PPS_SETPARAMS` request of a successful `prepare`, written out. -/
theorem prepare_request (os : OS) (pps : Device) (offset : pps_ktime)
    (modes : Int) (w : World) (c : Int) (p : pps_kparams)
    (hvalid : pps.valid = true) (hcap : os.getcap w.ioctls = .ok c)
    (hca : Int.land c PPS_CAPTUREASSERT ≠ 0)
    (hget : os.getparams (w.ioctls + 1) = .ok p)
    (hset : ∀ q, os.setparams (w.ioctls + 2) q = none) :
    (prepare os pps offset modes w).2.2.2.events.filterMap Event.setParams =
      w.events.filterMap Event.setParams ++
        [if Int.land c PPS_OFFSETASSERT ≠ 0 then
          { p with mode := Int.lor (Int.lor p.mode PPS_CAPTUREASSERT) PPS_OFFSETASSERT,
                   assert_off_tu := offset }
         else { p with mode := Int.lor p.mode PPS_CAPTUREASSERT }] := by
  by_cases hoa : Int.land c PPS_OFFSETASSERT = 0
  · unfold prepare
    simp [hvalid, Device.caps, Device.parameters, Device.setParameters, World.emit,
      World.ioctl, hcap, hca, hoa, hget, hset, boolToInt, Event.setParams]
  · unfold prepare
    simp [hvalid, Device.caps, Device.parameters, Device.setParameters, World.emit,
      World.ioctl, hcap, hca, hoa, hget, hset, boolToInt, Event.setParams]

theorem testBit_of_land_eq (p c : Int) (h : Int.land p c = p) (b : Nat)
    (hb : p.testBit b = true) : c.testBit b = true := by
  have := Int.testBit_land p c b
  rw [h, hb] at this
  simpa using this.symm

/-- Every mode bit that the source reports after a commit belongs to its
capability. -/
theorem setParameters_within_capability (s : CaptureSource) (req : pps_kparams) (b : Nat)
    (h : (s.setParameters req).getParameters.mode.testBit b = true) :
    (s.setParameters req).getCapability.testBit b = true := by
  simp only [CaptureSource.setParameters, CaptureSource.getParameters] at h
  rw [Int.testBit_land] at h
  simp only [Bool.and_eq_true] at h
  exact h.2

/-- `Device::setParameters` passes the request to the `ioctl` as it is. -/
theorem setParameters_forwards (os : OS) (d : Device) (req : pps_kparams) (w : World)
    (hv : d.valid = true) :
    (d.setParameters os req w).2.2.events = w.events ++ [.ioctl d._fd (.PPS_SETPARAMS req)] := by
  unfold Device.setParameters
  cases h : os.setparams w.ioctls req <;> simp [hv, h, World.ioctl]

/-- C11: on the request path of the repository (`prepare` driving
`Device::setParameters`) against a source whose stored mode lies within its
capability, as the one the driver registers: `prepare` sends exactly one request
`q`; committing `q ∧ capability` loses no bit of `q`, so the source then holds the
mode of `q` and the other fields of `q`; and, as after every commit, no mode bit
reported by `getParameters()` is absent from `capability()`. -/
theorem negotiated_mode_within_capability (s : CaptureSource) (os : OS) (pps : Device)
    (offset : pps_ktime) (modes : Int) (w : World)
    (hvalid : pps.valid = true)
    (hcap : os.getcap w.ioctls = .ok s.getCapability)
    (hca : Int.land s.getCapability PPS_CAPTUREASSERT ≠ 0)
    (hget : os.getparams (w.ioctls + 1) = .ok s.getParameters)
    (hset : ∀ q, os.setparams (w.ioctls + 2) q = none)
    (hin : Int.land s.getParameters.mode s.getCapability = s.getParameters.mode) :
    ∃ q : pps_kparams,
      (prepare os pps offset modes w).2.2.2.events.filterMap Event.setParams =
        w.events.filterMap Event.setParams ++ [q] ∧
      (∀ b, (s.setParameters q).getParameters.mode.testBit b = q.mode.testBit b) ∧
      (s.setParameters q).getParameters.api_version = q.api_version ∧
      (s.setParameters q).getParameters.assert_off_tu = q.assert_off_tu ∧
      (s.setParameters q).getParameters.clear_off_tu = q.clear_off_tu ∧
      (∀ b, (s.setParameters q).getParameters.mode.testBit b = true →
        (s.setParameters q).getCapability.testBit b = true) ∧
      (∀ (req : pps_kparams) (b : Nat),
        (s.setParameters req).getParameters.mode.testBit b = true →
        (s.setParameters req).getCapability.testBit b = true) := by
  have hq := prepare_request os pps offset modes w s.getCapability s.getParameters
    hvalid hcap hca hget hset
  generalize hgen : (if Int.land s.getCapability PPS_OFFSETASSERT ≠ 0 then
      ({ s.getParameters with
          mode := Int.lor (Int.lor s.getParameters.mode PPS_CAPTUREASSERT) PPS_OFFSETASSERT,
          assert_off_tu := offset } : pps_kparams)
    else { s.getParameters with mode := Int.lor s.getParameters.mode PPS_CAPTUREASSERT }) = q
    at hq
  have hc0 : s.getCapability.testBit 0 = true := testBit_zero_of_captureassert _ hca
  have hsub : ∀ b, q.mode.testBit b = true → s.capability.testBit b = true := by
    intro b hb
    by_cases hoa : Int.land s.getCapability PPS_OFFSETASSERT = 0
    · rw [if_neg (not_not.2 hoa)] at hgen
      subst hgen
      simp only [Int.testBit_lor, testBit_captureassert, Bool.or_eq_true,
        decide_eq_true_eq] at hb
      rcases hb with hb | hb
      · exact testBit_of_land_eq _ _ hin b hb
      · subst hb; exact hc0
    · rw [if_pos hoa] at hgen
      subst hgen
      simp only [Int.testBit_lor, testBit_captureassert, testBit_offsetassert,
        Bool.or_eq_true, decide_eq_true_eq] at hb
      rcases hb with (hb | hb) | hb
      · exact testBit_of_land_eq _ _ hin b hb
      · subst hb; exact hc0
      · subst hb; exact testBit_four_of_offsetassert _ hoa
  refine ⟨q, hq, ?_, rfl, rfl, rfl, fun b => setParameters_within_capability s q b,
    fun req b => setParameters_within_capability s req b⟩
  intro b
  simp only [CaptureSource.setParameters, CaptureSource.getParameters]
  rw [Int.testBit_land]
  cases hb : q.mode.testBit b with
  | false => rfl
  | true => simp [hsub b hb]

/-- C11 (witness): the source that the driver registers (capability 0x1151, default
mode 0x11), negotiated by `prepare` with offset 0; afterwards the source holds the
mode 0x11. -/
theorem negotiated_mode_within_capability_witness :
    (device_ok.valid = true ∧
      (os_of_source driver_source).getcap World.start.ioctls = .ok driver_source.getCapability ∧
      Int.land driver_source.getCapability PPS_CAPTUREASSERT ≠ 0 ∧
      (os_of_source driver_source).getparams (World.start.ioctls + 1) =
        .ok driver_source.getParameters ∧
      (∀ q, (os_of_source driver_source).setparams (World.start.ioctls + 2) q = none) ∧
      Int.land driver_source.getParameters.mode driver_source.getCapability =
        driver_source.getParameters.mode) ∧
    (∃ q : pps_kparams,
      (prepare (os_of_source driver_source) device_ok ktime_zero 0
          World.start).2.2.2.events.filterMap Event.setParams =
        World.start.events.filterMap Event.setParams ++ [q] ∧
      (∀ b, (driver_source.setParameters q).getParameters.mode.testBit b = q.mode.testBit b) ∧
      (driver_source.setParameters q).getParameters.api_version = q.api_version ∧
      (driver_source.setParameters q).getParameters.assert_off_tu = q.assert_off_tu ∧
      (driver_source.setParameters q).getParameters.clear_off_tu = q.clear_off_tu ∧
      (∀ b, (driver_source.setParameters q).getParameters.mode.testBit b = true →
        (driver_source.setParameters q).getCapability.testBit b = true) ∧
      (∀ (req : pps_kparams) (b : Nat),
        (driver_source.setParameters req).getParameters.mode.testBit b = true →
        (driver_source.setParameters req).getCapability.testBit b = true)) ∧
    (driver_source.after (prepare (os_of_source driver_source) device_ok ktime_zero 0
        World.start).2.2.2.events).getParameters.mode = 0x11 :=
  ⟨⟨by decide, rfl, by decide, rfl, fun _ => rfl, by decide⟩,
    negotiated_mode_within_capability driver_source (os_of_source driver_source) device_ok
      ktime_zero 0 World.start (by decide) rfl (by decide) rfl (fun _ => rfl) (by decide),
    by decide⟩

end PpsTool

namespace PpsTool

open LinuxPps

/-! ## The command line -/

theorem main_args_help (args : List CxxString) (devname : CxxString)
    (h : "--help".toList ∈ args) : main_args args devname = none := by
  induction args generalizing devname with
  | nil => cases h
  | cons a rest ih =>
    unfold main_args
    by_cases ha : a = "--help".toList
    · simp [ha]
    · have hrest : "--help".toList ∈ rest := by
        rcases List.mem_cons.1 h with h1 | h1
        · exact absurd h1.symm ha
        · exact h1
      simp only [if_neg ha]
      split
      · exact ih _ hrest
      · exact ih _ hrest

theorem main_args_no_help (args : List CxxString) (devname : CxxString)
    (h : "--help".toList ∉ args) :
    main_args args devname =
      some (((args.filter is_device_arg).getLast?.map (fun a => a.drop 9)).getD devname) := by
  induction args generalizing devname with
  | nil => rfl
  | cons a rest ih =>
    have ha : ¬ a = "--help".toList := fun e => h (e ▸ List.mem_cons_self _ _)
    have hrest : "--help".toList ∉ rest := fun e => h (List.mem_cons_of_mem _ e)
    unfold main_args
    simp only [if_neg ha]
    by_cases hd : a.length > 9 ∧ a.take 9 = "--device=".toList
    · have hdev : is_device_arg a = true := by
        simp [is_device_arg, hd.1, hd.2]
      rw [if_pos hd, ih _ hrest, List.filter_cons_of_pos hdev, List.getLast?_cons]
      cases (List.filter is_device_arg rest).getLast? <;> rfl
    · have hdev : ¬ is_device_arg a = true := by
        simp only [is_device_arg, Bool.and_eq_true, decide_eq_true_eq]
        exact hd
      rw [if_neg hd, ih _ hrest, List.filter_cons_of_neg hdev]

theorem main_args_requested (args : List CxxString) (h : "--help".toList ∉ args) :
    main_args args DefaultDevice = some (requested_device args) := by
  rw [main_args_no_help args DefaultDevice h]
  unfold requested_device
  cases (List.filter is_device_arg args).getLast? <;> rfl

end PpsTool

namespace PpsTool

open LinuxPps

theorem emit_cerr_opens (w : World) (l : Line) :
    (w.emit (.cerr l)).events.filter Event.isOpen = w.events.filter Event.isOpen := by
  simp [World.emit, Event.isOpen]

theorem emit_cout_opens (w : World) (l : Line) :
    (w.emit (.cout l)).events.filter Event.isOpen = w.events.filter Event.isOpen := by
  simp [World.emit, Event.isOpen]

theorem emit_sleep_opens (w : World) (n : Nat) :
    (w.emit (.sleep_for n)).events.filter Event.isOpen = w.events.filter Event.isOpen := by
  simp [World.emit, Event.isOpen]

theorem fetch_opens (os : OS) (d : Device) (data : pps_fdata) (t : timespec) (w : World) :
    (d.fetch os data t w).2.2.2.events.filter Event.isOpen = w.events.filter Event.isOpen := by
  unfold Device.fetch
  by_cases hv : d.valid = true
  · cases h : os.fetch w.ioctls (Device.fetch_request (os.stack_tmp_fdata w.ioctls) t).timeout <;>
      simp [hv, h, World.ioctl, Event.isOpen]
  · simp [hv]

theorem caps_opens (os : OS) (d : Device) (mode : Int) (w : World) :
    (d.caps os mode w).2.2.2.events.filter Event.isOpen = w.events.filter Event.isOpen := by
  unfold Device.caps
  by_cases hv : d.valid = true
  · cases h : os.getcap w.ioctls <;> simp [hv, h, World.ioctl, Event.isOpen]
  · simp [hv]

theorem parameters_opens (os : OS) (d : Device) (p : pps_kparams) (w : World) :
    (d.parameters os p w).2.2.2.events.filter Event.isOpen = w.events.filter Event.isOpen := by
  unfold Device.parameters
  by_cases hv : d.valid = true
  · cases h : os.getparams w.ioctls <;> simp [hv, h, World.ioctl, Event.isOpen]
  · simp [hv]

theorem setParameters_opens (os : OS) (d : Device) (p : pps_kparams) (w : World) :
    (d.setParameters os p w).2.2.events.filter Event.isOpen = w.events.filter Event.isOpen := by
  unfold Device.setParameters
  by_cases hv : d.valid = true
  · cases h : os.setparams w.ioctls p <;> simp [hv, h, World.ioctl, Event.isOpen]
  · simp [hv]

theorem prepare_set_opens (os : OS) (d2 : Device) (q : pps_kparams) (w2 : World) (m1 : Int) :
    (match d2.setParameters os q w2 with
      | (false, pps_source, w) =>
        (boolToInt false, pps_source.error.2, m1,
          w.emit (.cerr (.set_parameters_failed pps_source.error.1)))
      | (true, pps_source, w) =>
        (boolToInt true, pps_source, m1, w)).2.2.2.events.filter Event.isOpen =
      w2.events.filter Event.isOpen := by
  have h3 := setParameters_opens os d2 q w2
  rcases hs : d2.setParameters os q w2 with ⟨r3, d3, w3⟩
  rw [hs] at h3
  simp only at h3
  cases r3 with
  | false => simp only [emit_cerr_opens, h3]
  | true => simp only [h3]

theorem prepare_opens (os : OS) (d : Device) (o : pps_ktime) (m : Int) (w : World) :
    (prepare os d o m w).2.2.2.events.filter Event.isOpen = w.events.filter Event.isOpen := by
  unfold prepare
  by_cases hv : d.valid = true
  · simp only [hv, Bool.not_true, Bool.false_eq_true, if_false]
    have h1 := caps_opens os d m (w.emit (.cerr (.working d.deviceName)))
    rw [emit_cerr_opens] at h1
    rcases hc : d.caps os m (w.emit (.cerr (.working d.deviceName))) with ⟨r1, d1, m1, w1⟩
    rw [hc] at h1
    simp only at h1
    cases r1 with
    | false => simp only [emit_cerr_opens, h1]
    | true =>
      simp only
      by_cases hca : Int.land m1 PPS_CAPTUREASSERT = 0
      · simp only [hca, if_true, emit_cerr_opens, h1]
      · simp only [hca, if_false]
        have h2 := parameters_opens os d1 os.stack_params (w1.emit (.cout .captureassert_supported))
        rw [emit_cout_opens] at h2
        rcases hp : d1.parameters os os.stack_params (w1.emit (.cout .captureassert_supported))
          with ⟨r2, d2, p2, w2⟩
        rw [hp] at h2
        simp only at h2
        cases r2 with
        | false => simp only [emit_cerr_opens, h2, h1]
        | true =>
          simp only
          rw [← h1, ← h2]
          exact prepare_set_opens os d2 _ w2 m1
  · simp only [hv, Bool.not_false, if_true, emit_cerr_opens]

theorem main_loop_opens (os : OS) (modes : Int) (fuel k : Nat) (d : Device) (w : World) :
    (main_loop os modes fuel k d w).2.events.filter Event.isOpen =
      w.events.filter Event.isOpen := by
  induction fuel generalizing k d w with
  | zero => rfl
  | succ fuel ih =>
    unfold main_loop
    rw [print_eq]
    simp only
    have hrep : ∀ (v : World) (n : CxxString) (x : pps_fdata),
        (v.emit (reportLine n x)).events.filter Event.isOpen = v.events.filter Event.isOpen :=
      fun v n x => emit_cout_opens v _
    rw [ih, hrep, fetch_opens]
    split
    · rfl
    · exact emit_sleep_opens _ _

theorem device_open_events (os : OS) (d : Device) (w : World) :
    (Device.open os d w).2.2.events = w.events ++ [.sys_open d._devname] := by
  unfold Device.open
  cases h : os.sys_open d._devname with
  | error e => simp [World.emit]
  | ok fd =>
    by_cases hfd : fd > -1 <;> simp [hfd, World.emit]

theorem device_new_events (os : OS) (n : CxxString) (w : World) :
    (Device.new os n w).2.events = w.events ++ [.sys_open n] := by
  unfold Device.new
  have h := device_open_events os { _devname := n, _fd := -1, _err := 0 } w
  rcases ho : Device.open os { _devname := n, _fd := -1, _err := 0 } w with ⟨r, d1, w1⟩
  rw [ho] at h
  cases r <;> exact h

/-- C12: for an argument list without "--help", `main` opens exactly one device
path, the text after "--device=" in the last argument that starts with "--device="
and is longer than 9 characters, or "/dev/pps0" when there is no such argument;
for an argument list with "--help", `main` returns 0 and opens nothing. -/
theorem main_device_path (os : OS) (prog : CxxString) (args : List CxxString) (fuel : Nat) :
    if "--help".toList ∈ args then
      (main os (prog :: args) fuel).1 = some 0 ∧
      (main os (prog :: args) fuel).2.events.filter Event.isOpen = []
    else
      (main os (prog :: args) fuel).2.events.filter Event.isOpen =
        [.sys_open (requested_device args)] := by
  split
  · rename_i h
    unfold main
    simp only [List.tail_cons, main_args_help args DefaultDevice h]
    exact ⟨trivial, rfl⟩
  · rename_i h
    unfold main
    simp only [List.tail_cons, main_args_requested args h]
    have hnew := device_new_events os (requested_device args) World.start
    rcases hd : Device.new os (requested_device args) World.start with ⟨r, w1⟩
    rw [hd] at hnew
    simp only at hnew
    cases r with
    | error msg =>
      simp only [emit_cerr_opens, hnew]
      rfl
    | ok pps =>
      simp only
      have hp := prepare_opens os pps { sec := 0, nsec := 0, flags := 0 } 0 w1
      rcases hpr : prepare os pps { sec := 0, nsec := 0, flags := 0 } 0 w1 with ⟨ret, d2, m2, w2⟩
      rw [hpr] at hp
      simp only at hp
      split
      · simp only [hp, hnew]; rfl
      · rw [main_loop_opens, hp, hnew]; rfl

/-- C12 (instances): two device arguments, an unrelated one and a bare "--device=";
and a list with "--help" after a device argument. -/
theorem main_device_path_witness :
    (if "--help".toList ∈ ["--device=/dev/pps1".toList, "-v".toList, "--device=/dev/pps2".toList,
          "--device=".toList] then
      (main (os_session 0x1151 kparams_default) ("ppstool".toList ::
        ["--device=/dev/pps1".toList, "-v".toList, "--device=/dev/pps2".toList,
          "--device=".toList]) 2).1 = some 0 ∧
      (main (os_session 0x1151 kparams_default) ("ppstool".toList ::
        ["--device=/dev/pps1".toList, "-v".toList, "--device=/dev/pps2".toList,
          "--device=".toList]) 2).2.events.filter Event.isOpen = []
    else
      (main (os_session 0x1151 kparams_default) ("ppstool".toList ::
        ["--device=/dev/pps1".toList, "-v".toList, "--device=/dev/pps2".toList,
          "--device=".toList]) 2).2.events.filter Event.isOpen =
        [.sys_open (requested_device ["--device=/dev/pps1".toList, "-v".toList,
          "--device=/dev/pps2".toList, "--device=".toList])]) ∧
    requested_device ["--device=/dev/pps1".toList, "-v".toList, "--device=/dev/pps2".toList,
      "--device=".toList] = "/dev/pps2".toList ∧
    requested_device ["--device=".toList] = "/dev/pps0".toList :=
  ⟨main_device_path (os_session 0x1151 kparams_default) "ppstool".toList
      ["--device=/dev/pps1".toList, "-v".toList, "--device=/dev/pps2".toList,
        "--device=".toList] 2,
    by decide, by decide⟩

end PpsTool

namespace AcpiGpioPpsClient

open LinuxPps

/-! ## The interrupt handler -/

/-- C13: for every level value `v` (also a negative one) and every time `ts`, one
run of `irq_handler` calls `pps_get_ts`, then `gpiod_get_value` on the slot's line,
then `pps_event` exactly once, on the slot's own source, with `ts` and with
PPS_CAPTUREASSERT if `v` is not 0 and PPS_CAPTURECLEAR if `v` is 0; it returns
IRQ_HANDLED. -/
theorem irq_handler_publishes_one_event (ts : pps_event_time) (v : Int)
    (client : acpi_gpio_pps_client_device_data) :
    (irq_handler { pps_get_ts := ts, gpiod_get_value := v } client).1 = IRQ_HANDLED ∧
    (irq_handler { pps_get_ts := ts, gpiod_get_value := v } client).2 =
      [IrqCall.pps_get_ts, IrqCall.gpiod_get_value client.gpio,
        IrqCall.pps_event client.pps ts
          (if v = 0 then PPS_CAPTURECLEAR else PPS_CAPTUREASSERT) client] ∧
    ((irq_handler { pps_get_ts := ts, gpiod_get_value := v } client).2.filter
      IrqCall.isEvent).length = 1 := by
  unfold irq_handler
  by_cases hv : v = 0
  · simp [hv, IrqCall.isEvent]
  · simp [hv, IrqCall.isEvent]

end AcpiGpioPpsClient

namespace PpsTool

open LinuxPps

/-! ## The fetch step without CanWait -/

end PpsTool

namespace PpsTool

open LinuxPps

/-! ## The sticky error state of `PPS::Device` -/

theorem call_invalid (os : OS) (d : Device) (c : DeviceCall) (out : Outputs) (w : World)
    (h : d.valid = false) : Device.call os d c out w = (false, d, out, w) := by
  cases c <;>
    simp [Device.call, Device.parameters, Device.setParameters, Device.caps, Device.fetch, h]

theorem calls_invalid (os : OS) (cs : List DeviceCall) (d : Device) (out : Outputs) (w : World)
    (h : d.valid = false) :
    Device.calls os cs d out w = (cs.map (fun _ => false), d, out, w) := by
  induction cs with
  | nil => rfl
  | cons c rest ih =>
    unfold Device.calls
    rw [call_invalid os d c out w h]
    simp only [ih, List.map_cons]

theorem call_failed (os : OS) (d : Device) (c : DeviceCall) (out : Outputs) (w : World)
    (hv : d.valid = true) (hfail : (Device.call os d c out w).1 = false) :
    (Device.call os d c out w).2.1 =
      { d with _err := (Device.call os d c out w).2.2.2.errno } := by
  cases c with
  | parameters =>
    simp only [Device.call, Device.parameters, hv, if_true] at hfail ⊢
    cases h : os.getparams w.ioctls <;> simp [h] at hfail ⊢
  | setParameters p =>
    simp only [Device.call, Device.setParameters, hv, if_true] at hfail ⊢
    cases h : os.setparams w.ioctls p <;> simp [h] at hfail ⊢
  | caps =>
    simp only [Device.call, Device.caps, hv, if_true] at hfail ⊢
    cases h : os.getcap w.ioctls <;> simp [h] at hfail ⊢
  | fetch t =>
    simp only [Device.call, Device.fetch, hv, if_true] at hfail ⊢
    cases h : os.fetch w.ioctls (Device.fetch_request (os.stack_tmp_fdata w.ioctls) t).timeout <;>
      simp [h] at hfail ⊢

theorem main_loop_invalid (os : OS) (modes : Int) (fuel k : Nat) (d : Device) (w : World)
    (h : d.valid = false) :
    (main_loop os modes fuel k d w).2.ioctls = w.ioctls ∧
    (main_loop os modes fuel k d w).2.events.filter Event.isIoctl =
      w.events.filter Event.isIoctl := by
  induction fuel generalizing k w with
  | zero => exact ⟨rfl, rfl⟩
  | succ fuel ih =>
    unfold main_loop
    rw [print_eq]
    have hf : ∀ (x : pps_fdata) (v : World),
        d.fetch os x { tv_sec := 3, tv_nsec := 0 } v = (false, d, x, v) := by
      intro x v
      simp [Device.fetch, h]
    simp only [hf]
    obtain ⟨h1, h2⟩ := ih (k + 1)
      ((if Int.land modes PPS_CANWAIT ≠ 0 then w else w.emit (.sleep_for 1)).emit
        (reportLine d._devname (os.stack_data k)))
    rw [h1, h2]
    split <;> simp [World.emit, reportLine, Event.isIoctl]

/-- C15: once a request on a usable device fails with a non-zero `errno`, the
device is no longer `valid()`; every later request of a sequence without `error()`
returns false and leaves the device, the caller's variables and the world as they
are (no `ioctl`); `error()` returns the message of that `errno` and makes the
device usable again; and the run loop, which never calls `error()`, issues no
further `ioctl` from that device on, so no later fetch succeeds. -/
theorem device_error_sticky (os : OS) (d : Device) (c : DeviceCall) (out : Outputs) (w : World)
    (hv : d.valid = true) (hfail : (Device.call os d c out w).1 = false)
    (hne : (Device.call os d c out w).2.2.2.errno ≠ 0) :
    (Device.call os d c out w).2.1.valid = false ∧
    (∀ (cs : List DeviceCall) (out2 : Outputs) (w2 : World),
      Device.calls os cs (Device.call os d c out w).2.1 out2 w2 =
        (cs.map (fun _ => false), (Device.call os d c out w).2.1, out2, w2)) ∧
    (Device.call os d c out w).2.1.error.1 =
      Text.strerror (Device.call os d c out w).2.2.2.errno ∧
    (Device.call os d c out w).2.1.error.2.valid = true ∧
    (∀ (modes : Int) (fuel k : Nat) (w2 : World),
      (main_loop os modes fuel k (Device.call os d c out w).2.1 w2).2.ioctls = w2.ioctls ∧
      (main_loop os modes fuel k (Device.call os d c out w).2.1 w2).2.events.filter
        Event.isIoctl = w2.events.filter Event.isIoctl) := by
  have hd := call_failed os d c out w hv hfail
  have hfd : d._fd > -1 := by
    simp only [Device.valid, Bool.and_eq_true, decide_eq_true_eq] at hv
    exact hv.1
  have hinv : (Device.call os d c out w).2.1.valid = false := by
    rw [hd]
    simp [Device.valid, hne]
  refine ⟨hinv, fun cs out2 w2 => calls_invalid os cs _ out2 w2 hinv, ?_, ?_,
    fun modes fuel k w2 => main_loop_invalid os modes fuel k _ w2 hinv⟩
  · rw [hd]
    simp [Device.error, hne]
  · rw [hd]
    simp [Device.error, hne, Device.valid, hfd]

/-- C15 (witness): a fetch on the usable device fails with EIO. -/
theorem device_error_sticky_witness :
    (device_ok.valid = true ∧
      (Device.call (os_fetch_failing 0x1151 0 1 EIO) device_ok
        (.fetch { tv_sec := 3, tv_nsec := 0 })
        { params := kparams_default, mode := 0, fdata := fdata_zero } World.start).1 = false ∧
      (Device.call (os_fetch_failing 0x1151 0 1 EIO) device_ok
        (.fetch { tv_sec := 3, tv_nsec := 0 })
        { params := kparams_default, mode := 0, fdata := fdata_zero } World.start).2.2.2.errno
          ≠ 0) ∧
    ((Device.call (os_fetch_failing 0x1151 0 1 EIO) device_ok
        (.fetch { tv_sec := 3, tv_nsec := 0 })
        { params := kparams_default, mode := 0, fdata := fdata_zero } World.start).2.1.valid
          = false ∧
    (∀ (cs : List DeviceCall) (out2 : Outputs) (w2 : World),
      Device.calls (os_fetch_failing 0x1151 0 1 EIO) cs
        (Device.call (os_fetch_failing 0x1151 0 1 EIO) device_ok
          (.fetch { tv_sec := 3, tv_nsec := 0 })
          { params := kparams_default, mode := 0, fdata := fdata_zero } World.start).2.1
        out2 w2 =
        (cs.map (fun _ => false),
          (Device.call (os_fetch_failing 0x1151 0 1 EIO) device_ok
            (.fetch { tv_sec := 3, tv_nsec := 0 })
            { params := kparams_default, mode := 0, fdata := fdata_zero } World.start).2.1,
          out2, w2)) ∧
    (Device.call (os_fetch_failing 0x1151 0 1 EIO) device_ok
        (.fetch { tv_sec := 3, tv_nsec := 0 })
        { params := kparams_default, mode := 0, fdata := fdata_zero } World.start).2.1.error.1 =
      Text.strerror (Device.call (os_fetch_failing 0x1151 0 1 EIO) device_ok
        (.fetch { tv_sec := 3, tv_nsec := 0 })
        { params := kparams_default, mode := 0, fdata := fdata_zero } World.start).2.2.2.errno ∧
    (Device.call (os_fetch_failing 0x1151 0 1 EIO) device_ok
        (.fetch { tv_sec := 3, tv_nsec := 0 })
        { params := kparams_default, mode := 0, fdata := fdata_zero }
        World.start).2.1.error.2.valid = true ∧
    (∀ (modes : Int) (fuel k : Nat) (w2 : World),
      (main_loop (os_fetch_failing 0x1151 0 1 EIO) modes fuel k
        (Device.call (os_fetch_failing 0x1151 0 1 EIO) device_ok
          (.fetch { tv_sec := 3, tv_nsec := 0 })
          { params := kparams_default, mode := 0, fdata := fdata_zero } World.start).2.1
        w2).2.ioctls = w2.ioctls ∧
      (main_loop (os_fetch_failing 0x1151 0 1 EIO) modes fuel k
        (Device.call (os_fetch_failing 0x1151 0 1 EIO) device_ok
          (.fetch { tv_sec := 3, tv_nsec := 0 })
          { params := kparams_default, mode := 0, fdata := fdata_zero } World.start).2.1
        w2).2.events.filter Event.isIoctl = w2.events.filter Event.isIoctl)) :=
  ⟨⟨by decide, by decide, by decide⟩,
    device_error_sticky (os_fetch_failing 0x1151 0 1 EIO) device_ok
      (.fetch { tv_sec := 3, tv_nsec := 0 })
      { params := kparams_default, mode := 0, fdata := fdata_zero } World.start
      (by decide) (by decide) (by decide)⟩

end PpsTool

namespace Pwdog

/-! ## The probe of the PCI watchdog driver -/

/-- Apart from the two defective paths (a failed `pci_iomap`, a failed
`devm_add_action`), the probe returns, and it returns either 0 with the device
enabled, every step having succeeded, or a negative error code with the device
not enabled. -/
theorem pwdog_probe_other_paths (env : Env) (heartbeat : Int) (nowayout : Bool) (a : Nat)
    (hmap : env.pci_iomap = some a) (hadd : env.devm_add_action = 0) :
    ∃ r, (pwdog_probe env heartbeat nowayout).ret = some r ∧
      ((r = 0 ∧ (pwdog_probe env heartbeat nowayout).enabled = true ∧
          env.devm_kzalloc = true ∧ 0 ≤ env.pci_enable_device ∧
          (0 ≤ env.pci_set_dma_mask 64 ∨ 0 ≤ env.pci_set_dma_mask 32) ∧
          0 ≤ env.devm_request_irq ∧ 0 ≤ env.devm_watchdog_register_device) ∨
       (r < 0 ∧ (pwdog_probe env heartbeat nowayout).enabled = false)) := by
  unfold pwdog_probe
  cases hz : env.devm_kzalloc with
  | false => exact ⟨-ENOMEM, by simp, Or.inr ⟨by decide, by simp⟩⟩
  | true =>
    simp only [Bool.not_true, Bool.false_eq_true, if_false]
    by_cases he : env.pci_enable_device < 0
    · exact ⟨env.pci_enable_device, by simp [he], Or.inr ⟨he, by simp [he, State.call]⟩⟩
    · simp only [he, if_false]
      by_cases h64 : env.pci_set_dma_mask 64 < 0
      · by_cases h32 : env.pci_set_dma_mask 32 < 0
        · exact ⟨-EFAULT, by simp [h64, h32, probe_fail],
            Or.inr ⟨by decide, by simp [h64, h32, probe_fail]⟩⟩
        · by_cases hirq : env.devm_request_irq < 0
          · exact ⟨env.devm_request_irq, by simp [h64, h32, hmap, hirq, probe_fail],
              Or.inr ⟨hirq, by simp [h64, h32, hmap, hirq, probe_fail]⟩⟩
          · by_cases hw : env.devm_watchdog_register_device < 0
            · exact ⟨env.devm_watchdog_register_device,
                by simp [h64, h32, hmap, hirq, hw, probe_fail],
                Or.inr ⟨hw, by simp [h64, h32, hmap, hirq, hw, probe_fail]⟩⟩
            · refine ⟨0, by simp [h64, h32, hmap, hirq, hw, hadd, devm_add_action_or_reset],
                Or.inl ⟨rfl, by simp [h64, h32, hmap, hirq, hw, hadd, devm_add_action_or_reset,
                  State.call], ?_, ?_, ?_, ?_, ?_⟩⟩ <;> first | trivial | omega
      · by_cases hirq : env.devm_request_irq < 0
        · exact ⟨env.devm_request_irq, by simp [h64, hmap, hirq, probe_fail],
            Or.inr ⟨hirq, by simp [h64, hmap, hirq, probe_fail]⟩⟩
        · by_cases hw : env.devm_watchdog_register_device < 0
          · exact ⟨env.devm_watchdog_register_device,
              by simp [h64, hmap, hirq, hw, probe_fail],
              Or.inr ⟨hw, by simp [h64, hmap, hirq, hw, probe_fail]⟩⟩
          · refine ⟨0, by simp [h64, hmap, hirq, hw, hadd, devm_add_action_or_reset],
              Or.inl ⟨rfl, by simp [h64, hmap, hirq, hw, hadd, devm_add_action_or_reset,
                State.call], ?_, ?_, ?_, ?_, ?_⟩⟩ <;> first | trivial | omega

/-- C16 (code evaluated at the failing inputs): when `pci_iomap` returns NULL, the
probe disables the PCI device but returns 0, the value left in `err` by the
successful `pci_enable_device`; and when `devm_add_action` fails, `pwdog_disable`
runs while `priv->pdev` is still NULL and the probe does not return. -/
theorem pwdog_probe_iomap_failure_returns_zero :
    pwdog_probe env_iomap_fails HEARTBEAT NOWAYOUT =
      { ret := some 0, enabled := false,
        calls := [.pci_enable_device, .pci_set_dma_mask 64, .pci_set_consistent_dma_mask 64,
          .pci_iomap PCI_BAR PCI_BAR_SIZE, .pci_disable_device] } ∧
    (pwdog_probe env_add_action_fails HEARTBEAT NOWAYOUT).ret = none := by
  decide

end Pwdog

namespace Sc4ListGpios

open gpio_direction

/-! ## The direction lookup of the GPIO listing driver -/

theorem lookup_found (ares : acpi_resource) (aginfo : sc4_list_gpios_acpi_gpio_info) :
    (sc4_list_gpios_gpio_restriction_lookup ares aginfo).2.found = aginfo.found := by
  unfold sc4_list_gpios_gpio_restriction_lookup
  split
  · rfl
  · simp only
    split
    · split
      · rfl
      · split <;> rfl
    · rfl

theorem walk_found (rs : List acpi_resource) (aginfo : sc4_list_gpios_acpi_gpio_info) :
    (walk_resource_buffer sc4_list_gpios_gpio_restriction_lookup rs aginfo).2.found =
      aginfo.found := by
  induction rs generalizing aginfo with
  | nil => rfl
  | cons r rest ih =>
    unfold walk_resource_buffer
    have h := lookup_found r aginfo
    rcases hl : sc4_list_gpios_gpio_restriction_lookup r aginfo with ⟨status, ctx⟩
    rw [hl] at h
    simp only at h ⊢
    split
    · exact h
    · rw [ih ctx]; exact h

theorem get_gpio_dir_any (adev : acpi_device) (idx : Int) (dir0 : gpio_direction) :
    sc4_list_gpios_get_gpio_dir adev idx dir0 = GPIO_DIR_ANY := by
  unfold sc4_list_gpios_get_gpio_dir acpi_walk_resources
  simp only
  split
  · simp
  · have h := walk_found adev.resources { num := 0, idx := idx, dir := dir0, found := false }
    rcases hw : walk_resource_buffer sc4_list_gpios_gpio_restriction_lookup adev.resources
      { num := 0, idx := idx, dir := dir0, found := false } with ⟨status, ctx⟩
    rw [hw] at h
    simp only at h ⊢
    simp [h]

theorem add_gpio_any_name (env : Env) (st : State) (s : List Char) (n off : Nat)
    (hs : strstr s "-gpio".toList = some off)
    (hr : (sc4_list_gpios_add_gpio env st s n GPIO_DIR_ANY).1 = 0) :
    ((sc4_list_gpios_add_gpio env st s n GPIO_DIR_ANY).2.priv.gpio_attrs
      st.priv.gpios_count).name = some (s.take off) := by
  unfold sc4_list_gpios_add_gpio at hr ⊢
  unfold devm_kzalloc at hr ⊢
  cases hz : env.devm_kzalloc st.allocs with
  | false => simp [hz, ENOMEM] at hr
  | true =>
    simp only [hz, hs] at hr ⊢
    cases hg : env.gpiod_get (List.take off s) with
    | error e => simp [hg, State.call]
    | ok num => simp [hg, State.call]

/-- C17: for every resource list, status of the `_CRS` evaluation, index and initial
content of `aginfo.dir`, `sc4_list_gpios_get_gpio_dir` returns GPIO_DIR_ANY; and so
the attribute that `sc4_list_gpios_handle_gpio` adds for a property "<name>-gpio..."
is called "<name>", unchanged, also when "<name>" starts with "GPIO". -/
theorem get_gpio_dir_always_any (adev : acpi_device) (idx : Int) (dir0 : gpio_direction)
    (env : Env) (st : State) (s : List Char) (off : Nat)
    (hs : strstr s "-gpio".toList = some off)
    (hr : (sc4_list_gpios_handle_gpio env st adev (.string s)
      sc4_list_gpios_add_acpi_gpios).1 = 0) :
    sc4_list_gpios_get_gpio_dir adev idx dir0 = GPIO_DIR_ANY ∧
    ((sc4_list_gpios_handle_gpio env st adev (.string s)
      sc4_list_gpios_add_acpi_gpios).2.priv.gpio_attrs st.priv.gpios_count).name =
        some (s.take off) := by
  refine ⟨get_gpio_dir_any adev idx dir0, ?_⟩
  unfold sc4_list_gpios_handle_gpio at hr ⊢
  simp only [hs] at hr ⊢
  rcases hp : env.acpi_node_get_property_reference s with ⟨err, args0⟩
  simp only [hp] at hr ⊢
  by_cases he : err = 0
  · subst he
    simp only [ne_eq, not_true_eq_false, if_false, reduceCtorEq] at hr ⊢
    simp only [sc4_list_gpios_add_acpi_gpios, get_gpio_dir_any] at hr ⊢
    exact add_gpio_any_name env
      ((st.call (.acpi_node_get_property_reference s)).call .acpi_walk_resources)
      s s.length off hs hr
  · simp [he] at hr

/-- C17 (witness): the property "GPIO17-gpios" refers to resource 0, which is
restricted to input; the attribute is nevertheless called "GPIO17". With the
direction GPIO_DIR_IN the same call of `sc4_list_gpios_add_gpio` would have
produced "GPI17". -/
theorem get_gpio_dir_always_any_witness :
    (strstr "GPIO17-gpios".toList "-gpio".toList = some 6 ∧
      (sc4_list_gpios_handle_gpio env_ok state_zero adev_two_gpios
        (.string "GPIO17-gpios".toList) sc4_list_gpios_add_acpi_gpios).1 = 0) ∧
    (sc4_list_gpios_get_gpio_dir adev_two_gpios 0 GPIO_DIR_OUT = GPIO_DIR_ANY ∧
      ((sc4_list_gpios_handle_gpio env_ok state_zero adev_two_gpios
        (.string "GPIO17-gpios".toList)
        sc4_list_gpios_add_acpi_gpios).2.priv.gpio_attrs state_zero.priv.gpios_count).name =
          some ("GPIO17-gpios".toList.take 6)) ∧
    ((sc4_list_gpios_add_gpio env_ok state_zero "GPIO17-gpios".toList 12
        GPIO_DIR_IN).2.priv.gpio_attrs 0).name = some "GPI17".toList :=
  ⟨⟨by decide, by decide⟩,
    get_gpio_dir_always_any adev_two_gpios 0 GPIO_DIR_OUT env_ok state_zero
      "GPIO17-gpios".toList 6 (by decide) (by decide),
    by decide⟩

/-! ## The allocation sizes of the probe -/

/-- The requested size falls short of `c + 1` pointers whenever a pointer takes
at least two bytes. -/
theorem gpio_attr_addrs_size_short (env : Env) (c : Nat) (h : 2 ≤ env.sizeof_attribute_ptr) :
    gpio_attr_addrs_size env c < attr_ptr_array_size env (c + 1) := by
  unfold gpio_attr_addrs_size attr_ptr_array_size
  rw [Nat.add_mul, Nat.mul_comm]
  omega

/-- C18 (code evaluated at the failing input): two GPIOs, pointers of 8 bytes. The
counting pass finds 2, the probe requests 2 * 40 = 80 bytes for `gpio_attrs` and
8 * 2 + 1 = 17 bytes for `gpio_attr_addrs`, fewer than the (2 + 1) * 8 = 24 bytes
of the three entries that the adding pass and the attribute group use. -/
theorem probe_requests_short_pointer_array :
    (sc4_list_gpios_enumerate_acpi_gpios env_ok (some adev_two_gpios) state_zero
      sc4_list_gpios_count_gpios).2.priv.gpios_count = 2 ∧
    (sc4_list_gpios_probe env_ok (some adev_two_gpios)).2.calls.filterMap Call.allocSize =
      [80, 80, 17, 13, 12] ∧
    gpio_attr_addrs_size env_ok 2 = 17 ∧
    attr_ptr_array_size env_ok (2 + 1) = 24 ∧
    (sc4_list_gpios_probe env_ok (some adev_two_gpios)).1 = 0 ∧
    (sc4_list_gpios_probe env_ok (some adev_two_gpios)).2.priv.gpio_attr_addrs 1 = some 1 := by
  decide

end Sc4ListGpios
